import Mathlib

/-- Decimal digits of a natural number, least significant first, driven by an
explicit fuel argument so that evaluation is structural (mirrors Go's decimal
formatting in fmt.Sprintf). -/
def digitsRevFuel : Nat → Nat → List Nat
  | 0, _ => []
  | fuel + 1, n => if n = 0 then [] else n % 10 :: digitsRevFuel fuel (n / 10)

/-- Decimal digits of a natural number, least significant first. -/
def digitsRev (n : Nat) : List Nat := digitsRevFuel n n

/-- Value of a least-significant-first digit list. -/
def undigits (l : List Nat) : Nat := l.foldr (fun d acc => d + 10 * acc) 0

theorem digitsRevFuel_zero (f : Nat) : digitsRevFuel f 0 = [] := by
  cases f <;> simp [digitsRevFuel]

theorem undigits_digitsRevFuel : ∀ f n, n ≤ f → undigits (digitsRevFuel f n) = n := by
  intro f
  induction f with
  | zero => intro n h; interval_cases n; simp [digitsRevFuel, undigits]
  | succ f ih =>
    intro n h
    by_cases h0 : n = 0
    · subst h0; simp [digitsRevFuel, undigits]
    · have hdiv : n / 10 ≤ f := by
        have : n / 10 < n := Nat.div_lt_self (Nat.pos_of_ne_zero h0) (by decide)
        omega
      simp only [digitsRevFuel, if_neg h0, undigits, List.foldr]
      have := ih (n / 10) hdiv
      simp only [undigits] at this
      rw [this]
      omega

theorem digitsRev_injective : Function.Injective digitsRev := by
  intro a b h
  have ha := undigits_digitsRevFuel a a le_rfl
  have hb := undigits_digitsRevFuel b b le_rfl
  rw [← ha, ← hb]
  simp only [digitsRev] at h
  rw [h]

/-- The character for one decimal digit (mirrors fmt's digit rendering). -/
def digitChar (d : Nat) : Char := Char.ofNat (48 + d)

/-- Decimal rendering of a natural number, as produced by Go's fmt `%d` verb. -/
def natRepr (n : Nat) : String :=
  if n = 0 then "0" else String.mk (((digitsRev n).reverse).map digitChar)

/-- Decimal rendering of a Go `int`, as produced by fmt's `%d` verb. -/
def intRepr (n : Int) : String :=
  if n < 0 then "-" ++ natRepr n.natAbs else natRepr n.natAbs

/-- Zero-padded two-digit rendering, as produced by fmt's `%02d` verb on a
nonnegative value: one leading zero for values below 10, plain decimal
otherwise. -/
def pad2 (n : Nat) : String := if n < 10 then "0" ++ natRepr n else natRepr n

theorem digitsRevFuel_lt_ten : ∀ f n d, d ∈ digitsRevFuel f n → d < 10 := by
  intro f
  induction f with
  | zero => intro n d h; simp [digitsRevFuel] at h
  | succ f ih =>
    intro n d h
    by_cases h0 : n = 0
    · subst h0; simp [digitsRevFuel] at h
    · simp only [digitsRevFuel, if_neg h0, List.mem_cons] at h
      rcases h with h | h
      · subst h; exact Nat.mod_lt _ (by decide)
      · exact ih _ _ h

theorem digitChar_inj_lt : ∀ d, d < 10 → ∀ e, e < 10 → digitChar d = digitChar e → d = e := by
  decide

theorem map_digitChar_inj : ∀ l₁ l₂ : List Nat, (∀ d ∈ l₁, d < 10) → (∀ d ∈ l₂, d < 10) →
    l₁.map digitChar = l₂.map digitChar → l₁ = l₂ := by
  intro l₁
  induction l₁ with
  | nil => intro l₂ _ _ h; cases l₂ <;> simp_all
  | cons a t ih =>
    intro l₂ h₁ h₂ h
    cases l₂ with
    | nil => simp at h
    | cons b t₂ =>
      simp only [List.map_cons, List.cons.injEq] at h
      have ha : a = b := digitChar_inj_lt a (h₁ a (by simp)) b (h₂ b (by simp)) h.1
      have ht : t = t₂ := ih t₂ (fun d hd => h₁ d (by simp [hd])) (fun d hd => h₂ d (by simp [hd])) h.2
      rw [ha, ht]

theorem natRepr_injective : Function.Injective natRepr := by
  intro a b h
  by_cases ha : a = 0 <;> by_cases hb : b = 0
  · omega
  · exfalso
    rw [natRepr, if_pos ha, natRepr, if_neg hb] at h
    have hd := congrArg String.data h
    simp only [String.data] at hd
    have : ([0] : List Nat).map digitChar = ((digitsRev b).reverse).map digitChar := by
      simpa [digitChar] using hd
    have := map_digitChar_inj [0] (digitsRev b).reverse (by simp)
      (fun d hd' => digitsRevFuel_lt_ten _ _ _ (List.mem_reverse.mp hd')) this
    have hrev : digitsRev b = [0] := by
      have := congrArg List.reverse this
      simpa using this.symm
    have := undigits_digitsRevFuel b b le_rfl
    rw [digitsRev] at hrev
    rw [hrev] at this
    simp [undigits] at this
    exact hb this.symm
  · exfalso
    rw [natRepr, if_neg ha, natRepr, if_pos hb] at h
    have hd := congrArg String.data h
    simp only [String.data] at hd
    have : ((digitsRev a).reverse).map digitChar = ([0] : List Nat).map digitChar := by
      simpa [digitChar] using hd
    have := map_digitChar_inj (digitsRev a).reverse [0]
      (fun d hd' => digitsRevFuel_lt_ten _ _ _ (List.mem_reverse.mp hd')) (by simp) this
    have hrev : digitsRev a = [0] := by
      have := congrArg List.reverse this
      simpa using this
    have := undigits_digitsRevFuel a a le_rfl
    rw [digitsRev] at hrev
    rw [hrev] at this
    simp [undigits] at this
    exact ha this.symm
  · rw [natRepr, if_neg ha, natRepr, if_neg hb] at h
    have hd := congrArg String.data h
    simp only [String.data] at hd
    have := map_digitChar_inj (digitsRev a).reverse (digitsRev b).reverse
      (fun d hd' => digitsRevFuel_lt_ten _ _ _ (List.mem_reverse.mp hd'))
      (fun d hd' => digitsRevFuel_lt_ten _ _ _ (List.mem_reverse.mp hd')) hd
    have : digitsRev a = digitsRev b := List.reverse_injective this
    exact digitsRev_injective this

theorem string_append_data (a b : String) : (a ++ b).data = a.data ++ b.data := by
  simp

theorem string_append_left_cancel {a b c : String} (h : a ++ b = a ++ c) : b = c := by
  have := congrArg String.data h
  simp at this
  exact String.ext this

theorem digitsRevFuel_msd : ∀ f n, n ≠ 0 → n ≤ f →
    ∃ l d, digitsRevFuel f n = l ++ [d] ∧ d ≠ 0 ∧ d < 10 := by
  intro f
  induction f with
  | zero => intro n h0 h; omega
  | succ f ih =>
    intro n h0 h
    simp only [digitsRevFuel, if_neg h0]
    by_cases hq : n / 10 = 0
    · refine ⟨[], n % 10, by rw [hq, digitsRevFuel_zero]; simp, ?_, Nat.mod_lt _ (by decide)⟩
      have : n < 10 := by omega
      omega
    · have hle : n / 10 ≤ f := by
        have : n / 10 < n := Nat.div_lt_self (Nat.pos_of_ne_zero h0) (by decide)
        omega
      obtain ⟨l, d, heq, hd0, hd10⟩ := ih (n / 10) hq hle
      exact ⟨n % 10 :: l, d, by rw [heq]; simp, hd0, hd10⟩

theorem natRepr_msd_data (n : Nat) (h0 : n ≠ 0) :
    ∃ d t, (natRepr n).data = digitChar d :: t ∧ d ≠ 0 ∧ d < 10 := by
  obtain ⟨l, d, heq, hd0, hd10⟩ := digitsRevFuel_msd n n h0 le_rfl
  refine ⟨d, (l.reverse).map digitChar, ?_, hd0, hd10⟩
  rw [natRepr, if_neg h0]
  simp only [String.data]
  rw [digitsRev, heq]
  simp

theorem pad2_injective : Function.Injective pad2 := by
  intro a b h
  by_cases ha : a < 10 <;> by_cases hb : b < 10
  · rw [pad2, if_pos ha, pad2, if_pos hb] at h
    exact natRepr_injective (string_append_left_cancel h)
  · exfalso
    rw [pad2, if_pos ha, pad2, if_neg hb] at h
    have hd := congrArg String.data h
    rw [string_append_data] at hd
    obtain ⟨d, t, hdt, hd0, hd10⟩ := natRepr_msd_data b (by omega)
    rw [hdt] at hd
    have h0 : ("0" : String).data = ['0'] := rfl
    rw [h0] at hd
    simp only [List.cons_append, List.nil_append, List.cons.injEq] at hd
    have : (0 : Nat) = d := digitChar_inj_lt 0 (by decide) d hd10 hd.1
    omega
  · exfalso
    rw [pad2, if_neg ha, pad2, if_pos hb] at h
    have hd := congrArg String.data h
    rw [string_append_data] at hd
    obtain ⟨d, t, hdt, hd0, hd10⟩ := natRepr_msd_data a (by omega)
    rw [hdt] at hd
    have h0 : ("0" : String).data = ['0'] := rfl
    rw [h0] at hd
    simp only [List.cons_append, List.nil_append, List.cons.injEq] at hd
    have : d = (0 : Nat) := digitChar_inj_lt d hd10 0 (by decide) hd.1
    omega
  · rw [pad2, if_neg ha, pad2, if_neg hb] at h
    exact natRepr_injective h

/-- Embedding of pkg/config/types.go `SSHConfig`. -/
structure SSHConfig where
  user : String
  port : Int
  keyFile : String
  password : String
deriving DecidableEq

/-- Embedding of pkg/config/types.go `NodeConfig`. -/
structure NodeConfig where
  role : String
  ip : String
  hostname : String
  gpu : Bool
  ssh : SSHConfig
deriving DecidableEq

/-- Embedding of pkg/config/types.go `HarborConfig`. -/
structure HarborConfig where
  username : String
  password : String
  insecure : Bool
deriving DecidableEq

/-- Embedding of pkg/config/types.go `NetworkConfig`. -/
structure NetworkConfig where
  podSubnet : String
  serviceSubnet : String
deriving DecidableEq

/-- Embedding of pkg/config/types.go `HAConfig`. -/
structure HAConfig where
  enabled : Bool
  vip : String
deriving DecidableEq

/-- Embedding of pkg/config/types.go `BGPPeerConfig`. -/
structure BGPPeerConfig where
  peerAddress : String
  peerASN : Int
deriving DecidableEq

/-- Embedding of pkg/config/types.go `BGPConfig`. -/
structure BGPConfig where
  enabled : Bool
  localASN : Int
  peers : List BGPPeerConfig
  loadBalancerIPs : List String
deriving DecidableEq

/-- Embedding of pkg/config/types.go `HubbleMetrics`. -/
structure HubbleMetrics where
  enabled : Bool
deriving DecidableEq

/-- Embedding of pkg/config/types.go `HubbleUIConfig`. -/
structure HubbleUIConfig where
  enabled : Bool
  nodePort : Int
deriving DecidableEq

/-- Embedding of pkg/config/types.go `HubbleConfig`. -/
structure HubbleConfig where
  enabled : Bool
  metrics : HubbleMetrics
  ui : HubbleUIConfig
deriving DecidableEq

/-- Embedding of pkg/config/types.go `LoadBalancerConfig`. -/
structure LoadBalancerConfig where
  provider : String
  mode : String
deriving DecidableEq

/-- Embedding of pkg/config/types.go `GatewayAPIConfig`. -/
structure GatewayAPIConfig where
  enabled : Bool
deriving DecidableEq

/-- Embedding of pkg/config/types.go `EnvoyConfig`. -/
structure EnvoyConfig where
  enabled : Bool
deriving DecidableEq

/-- Embedding of pkg/config/types.go `MetadataConfig`. -/
structure MetadataConfig where
  name : String
deriving DecidableEq

/-- Embedding of pkg/config/types.go `ClusterSpec`. -/
structure ClusterSpec where
  version : String
  imageRepository : String
  harbor : HarborConfig
  networking : NetworkConfig
  ha : HAConfig
  hubble : HubbleConfig
  loadBalancer : LoadBalancerConfig
  bgp : BGPConfig
  gatewayAPI : GatewayAPIConfig
  envoy : EnvoyConfig
  nodes : List NodeConfig
deriving DecidableEq

/-- Embedding of pkg/config/types.go `ClusterConfig`. -/
structure ClusterConfig where
  apiVersion : String
  kind : String
  metadata : MetadataConfig
  spec : ClusterSpec
deriving DecidableEq

/-- Embedding of `ValidateImmutableFields` (src/unnamed/part_002, config package):
the list of violation messages accumulated into `errors`, in source order. -/
def immutableFieldErrors (oldCfg newCfg : ClusterConfig) : List String :=
  (if oldCfg.metadata.name ≠ newCfg.metadata.name then
    ["集群名称不可修改"] else []) ++
  (if oldCfg.spec.networking.podSubnet ≠ newCfg.spec.networking.podSubnet then
    ["Pod 网段不可修改 (当前: " ++ oldCfg.spec.networking.podSubnet ++
     ", 尝试修改为: " ++ newCfg.spec.networking.podSubnet ++ ")"] else []) ++
  (if oldCfg.spec.networking.serviceSubnet ≠ newCfg.spec.networking.serviceSubnet then
    ["Service 网段不可修改 (当前: " ++ oldCfg.spec.networking.serviceSubnet ++
     ", 尝试修改为: " ++ newCfg.spec.networking.serviceSubnet ++ ")"] else []) ++
  (if oldCfg.spec.version ≠ newCfg.spec.version then
    ["Kubernetes 版本不可通过 update 命令修改，请使用 upgrade 命令 (当前: " ++
     oldCfg.spec.version ++ ", 尝试修改为: " ++ newCfg.spec.version ++ ")"] else [])

/-- Embedding of `ValidateImmutableFields` (src/unnamed/part_002): `none` when no
immutable field changed, otherwise `some` of the single aggregated error text
joining every violation message. -/
def ValidateImmutableFields (oldCfg newCfg : ClusterConfig) : Option String :=
  let errors := immutableFieldErrors oldCfg newCfg
  if errors.length > 0 then
    some ("检测到不可变配置被修改:\n  - " ++ String.intercalate "\n  - " errors)
  else
    none

/-- Embedding of `validateHA` (src/unnamed/part_002). `net.ParseIP` is external
library code; its success predicate is abstracted as the `parseIPOk` parameter
(the branch the claims exercise returns before it is consulted). -/
def validateHA (parseIPOk : String → Bool) (cfg : ClusterConfig) : Option String :=
  if ¬ cfg.spec.ha.enabled then none
  else
    let masterCount := cfg.spec.nodes.countP (fun n => n.role = "master")
    if masterCount < 3 then
      some ("高可用模式至少需要 3 个 Master 节点，当前只有 " ++ natRepr masterCount ++ " 个")
    else if cfg.spec.ha.vip = "" then
      some "启用高可用模式时，spec.ha.vip 不能为空"
    else if ¬ parseIPOk cfg.spec.ha.vip then
      some ("VIP 地址格式不正确: " ++ cfg.spec.ha.vip)
    else
      none

/-- A node whose hostname the loader must auto-generate as a master name. -/
def isAutoMaster (n : NodeConfig) : Bool := n.hostname = "" && n.role = "master"

/-- A node whose hostname the loader must auto-generate as a GPU worker name. -/
def isAutoGpuWorker (n : NodeConfig) : Bool := n.hostname = "" && n.role = "worker" && n.gpu

/-- A node whose hostname the loader must auto-generate as a plain worker name. -/
def isAutoWorker (n : NodeConfig) : Bool := n.hostname = "" && n.role = "worker" && !n.gpu

/-- Recursion of `processNodeHostnames` (src/pkg/config/loader.go): the three
counters start at 1 and each advances only when its partition consumes it. -/
def processNodeHostnamesGo (clusterName : String) : Nat → Nat → Nat → List NodeConfig → List NodeConfig
  | _, _, _, [] => []
  | m, w, g, node :: rest =>
    if node.hostname = "" then
      if node.role = "master" then
        { node with hostname := clusterName ++ "-master-" ++ pad2 m } ::
          processNodeHostnamesGo clusterName (m + 1) w g rest
      else if node.role = "worker" then
        if node.gpu then
          { node with hostname := clusterName ++ "-gpu-node-" ++ pad2 g } ::
            processNodeHostnamesGo clusterName m w (g + 1) rest
        else
          { node with hostname := clusterName ++ "-node-" ++ pad2 w } ::
            processNodeHostnamesGo clusterName m (w + 1) g rest
      else
        node :: processNodeHostnamesGo clusterName m w g rest
    else
      node :: processNodeHostnamesGo clusterName m w g rest

/-- Embedding of `processNodeHostnames` (src/pkg/config/loader.go): auto-generate
hostnames for nodes that do not carry one. -/
def processNodeHostnames (cfg : ClusterConfig) : ClusterConfig :=
  { cfg with spec.nodes := processNodeHostnamesGo cfg.metadata.name 1 1 1 cfg.spec.nodes }

/-- Embedding of the `ConfigChange` record (src/pkg/cluster/update.go). -/
structure ConfigChange where
  type : String
  description : String
  oldValue : String
  newValue : String
  affectedComponent : String
  requiresRestart : Bool
deriving DecidableEq

/-- The change list built when BGP goes from unconfigured or disabled to enabled
(shared shape of the two enabling branches of `detectBGPChanges`); `oldEnable`
is the OldValue recorded on the toggle entry ("未配置" or "禁用"). -/
def bgpEnableChanges (oldEnable : String) (newCfg : ClusterConfig) : List ConfigChange :=
  [{ type := "BGP", description := "启用 BGP 控制平面", oldValue := oldEnable,
     newValue := "启用", affectedComponent := "Cilium", requiresRestart := true },
   { type := "BGP", description := "配置 BGP AS 号: " ++ intRepr newCfg.spec.bgp.localASN,
     oldValue := "", newValue := intRepr newCfg.spec.bgp.localASN,
     affectedComponent := "Cilium", requiresRestart := false }] ++
  (newCfg.spec.bgp.peers.enum.map fun p =>
    { type := "BGP",
      description := "添加 BGP Peer " ++ natRepr (p.1 + 1) ++ ": " ++ p.2.peerAddress ++
        " (AS " ++ intRepr p.2.peerASN ++ ")",
      oldValue := "", newValue := p.2.peerAddress ++ "/" ++ intRepr p.2.peerASN,
      affectedComponent := "BGP Peering", requiresRestart := false }) ++
  (newCfg.spec.bgp.loadBalancerIPs.enum.map fun ip =>
    { type := "BGP",
      description := "添加 LoadBalancer IP 池 " ++ natRepr (ip.1 + 1) ++ ": " ++ ip.2,
      oldValue := "", newValue := ip.2,
      affectedComponent := "IP Pool", requiresRestart := false })

/-- Embedding of `detectBGPChanges` (src/pkg/cluster/update.go). A nil `oldCfg`
pointer is `none`. -/
def detectBGPChanges (oldCfg : Option ClusterConfig) (newCfg : ClusterConfig) : List ConfigChange :=
  match oldCfg with
  | none =>
    if newCfg.spec.bgp.enabled then bgpEnableChanges "未配置" newCfg else []
  | some oldCfg =>
    if ¬ oldCfg.spec.bgp.enabled ∧ newCfg.spec.bgp.enabled then
      bgpEnableChanges "禁用" newCfg
    else if oldCfg.spec.bgp.enabled ∧ newCfg.spec.bgp.enabled then
      (if oldCfg.spec.bgp.localASN ≠ newCfg.spec.bgp.localASN then
        [{ type := "BGP", description := "修改 BGP AS 号",
           oldValue := intRepr oldCfg.spec.bgp.localASN,
           newValue := intRepr newCfg.spec.bgp.localASN,
           affectedComponent := "BGP Peering", requiresRestart := false }] else []) ++
      (if oldCfg.spec.bgp.peers.length ≠ newCfg.spec.bgp.peers.length then
        [{ type := "BGP", description := "更新 BGP Peer 配置",
           oldValue := natRepr oldCfg.spec.bgp.peers.length ++ " 个 Peer",
           newValue := natRepr newCfg.spec.bgp.peers.length ++ " 个 Peer",
           affectedComponent := "BGP Peering", requiresRestart := false }] else []) ++
      (if oldCfg.spec.bgp.loadBalancerIPs.length ≠ newCfg.spec.bgp.loadBalancerIPs.length then
        [{ type := "BGP", description := "更新 LoadBalancer IP 池",
           oldValue := natRepr oldCfg.spec.bgp.loadBalancerIPs.length ++ " 个 IP",
           newValue := natRepr newCfg.spec.bgp.loadBalancerIPs.length ++ " 个 IP",
           affectedComponent := "IP Pool", requiresRestart := false }] else [])
    else []

/-- Embedding of `detectAllChanges` (src/pkg/cluster/update.go). -/
def detectAllChanges (oldCfg : Option ClusterConfig) (newCfg : ClusterConfig) : List ConfigChange :=
  match oldCfg with
  | none => []
  | some oldCfg =>
    detectBGPChanges (some oldCfg) newCfg ++
    (if oldCfg.spec.harbor.username ≠ newCfg.spec.harbor.username ∨
        oldCfg.spec.harbor.password ≠ newCfg.spec.harbor.password then
      [{ type := "Harbor", description := "更新 Harbor 认证信息", oldValue := "",
         newValue := "", affectedComponent := "Containerd", requiresRestart := false }]
    else [])

/-- Embedding of `InitConfig` (src/pkg/kubeadm/config.go), the parameter record
rendered into the kubeadm-init template. -/
structure InitConfig where
  version : String
  imageRepository : String
  controlPlaneEndpoint : String
  clusterName : String
  vip : String
  localIP : String
  podSubnet : String
  serviceSubnet : String
  masterIPs : List String
deriving DecidableEq

/-- Embedding of `GenerateInitConfig` (src/pkg/kubeadm/config.go): collect master
IPs, pick the control-plane endpoint (VIP when HA is enabled, otherwise the
supplied local address), and build the template parameters. -/
def GenerateInitConfig (clusterConfig : ClusterConfig) (localIP : String) : InitConfig :=
  let masterIPs := (clusterConfig.spec.nodes.filter (fun n => n.role = "master")).map (·.ip)
  let controlPlaneEndpoint :=
    if clusterConfig.spec.ha.enabled then clusterConfig.spec.ha.vip ++ ":6443"
    else localIP ++ ":6443"
  { version := clusterConfig.spec.version
    imageRepository := clusterConfig.spec.imageRepository
    controlPlaneEndpoint := controlPlaneEndpoint
    clusterName := clusterConfig.metadata.name
    vip := clusterConfig.spec.ha.vip
    localIP := localIP
    podSubnet := clusterConfig.spec.networking.podSubnet
    serviceSubnet := clusterConfig.spec.networking.serviceSubnet
    masterIPs := masterIPs }

/-- Embedding of the kubeadm-init template rendering (templates/kubeadm-init.yaml.tpl
applied to `InitConfig` by text/template.Execute): literal text with parameter
values spliced at the placeholder positions. -/
def renderInitTemplate (p : InitConfig) : String :=
  "apiVersion: kubeadm.k8s.io/v1beta4\n" ++
  "kind: ClusterConfiguration\n" ++
  "kubernetesVersion: " ++ p.version ++ "\n" ++
  "imageRepository: " ++ p.imageRepository ++ "\n" ++
  "controlPlaneEndpoint: \"" ++ p.controlPlaneEndpoint ++ "\"\n" ++
  "clusterName: " ++ p.clusterName ++ "\n" ++
  "certificatesDir: /etc/kubernetes/pki\n" ++
  "caCertificateValidityPeriod: 876000h0m0s\n" ++
  "certificateValidityPeriod: 876000h0m0s\n" ++
  "encryptionAlgorithm: RSA-2048\n" ++
  "networking:\n" ++
  "  dnsDomain: cluster.local\n" ++
  "  podSubnet: " ++ p.podSubnet ++ "\n" ++
  "  serviceSubnet: " ++ p.serviceSubnet ++ "\n" ++
  "apiServer:\n" ++
  "  certSANs:" ++ (if p.vip ≠ "" then "\n  - \"" ++ p.vip ++ "\"" else "") ++ "\n  " ++
  String.join (p.masterIPs.map (fun ip => "- \"" ++ ip ++ "\"\n  ")) ++
  "extraArgs:\n" ++
  "  - name: service-node-port-range\n" ++
  "    value: \"1-65535\"\n" ++
  "etcd:\n" ++
  "  local:\n" ++
  "    dataDir: /var/lib/etcd\n" ++
  "---\n" ++
  "apiVersion: kubeadm.k8s.io/v1beta4\n" ++
  "kind: InitConfiguration\n" ++
  "localAPIEndpoint:\n" ++
  "  advertiseAddress: " ++ p.localIP ++ "\n" ++
  "  bindPort: 6443\n" ++
  "nodeRegistration:\n" ++
  "  criSocket: unix:///run/containerd/containerd.sock\n" ++
  "  kubeletExtraArgs:\n" ++
  "  - name: cgroup-driver\n" ++
  "    value: systemd\n" ++
  "---\n" ++
  "apiVersion: kubelet.config.k8s.io/v1beta1\n" ++
  "kind: KubeletConfiguration\n" ++
  "cgroupDriver: systemd\n"

/-- Embedding of `getFirstMasterIP` (src/pkg/cluster/deploy.go): the address of
the first node carrying the master role, or "" when none exists. -/
def getFirstMasterIP (cfg : ClusterConfig) : String :=
  match cfg.spec.nodes.find? (fun n => n.role = "master") with
  | some n => n.ip
  | none => ""

/-- Whether `sub` occurs as a contiguous run inside `l` (embedding of Go's
strings.Contains over the rune sequence). -/
def listContainsSub (sub : List Char) : List Char → Bool
  | [] => sub.isPrefixOf []
  | l@(_ :: t) => sub.isPrefixOf l || listContainsSub sub t

/-- Embedding of `strings.Contains s sub`. -/
def strContains (s sub : String) : Bool := listContainsSub sub.data s.data

/-- The connection-level classification used by `ExecuteWithRetry`
(src/pkg/executor/ssh.go): the error text mentions "connection",
"broken pipe" or "EOF". -/
def isConnectionErrText (e : String) : Bool :=
  strContains e "connection" || strContains e "broken pipe" || strContains e "EOF"

/-- The authentication method handed to ssh.Dial. -/
inductive AuthMethod
  | publicKey (keyFile : String)
  | passwordAuth (pw : String)
deriving DecidableEq

/-- Embedding of the `SSHClient` record (src/pkg/executor/ssh.go): the fields the
Go struct keeps besides the live transport handle. -/
structure SSHClient where
  host : String
  port : Int
  user : String
  keyFile : String
  password : String
deriving DecidableEq

/-- Oracle for the externals of connection establishment: `keyLoad` models
os.ReadFile + ssh.ParsePrivateKey on a key path (already-wrapped error text),
`dial` models ssh.Dial for host, user and auth method. -/
structure ConnWorld where
  keyLoad : String → Except String Unit
  dial : String → String → AuthMethod → Except String Unit

/-- Embedding of `NewSSHClientWithPassword` (src/pkg/executor/ssh.go): key
authentication has priority when a key path is supplied; password authentication
otherwise; an error when neither credential exists. -/
def NewSSHClientWithPassword (w : ConnWorld) (host : String) (port : Int)
    (user keyFile password : String) : Except String SSHClient :=
  if keyFile ≠ "" then
    match w.keyLoad keyFile with
    | .error e => .error e
    | .ok _ =>
      match w.dial host user (.publicKey keyFile) with
      | .error e => .error ("SSH 连接失败: " ++ e)
      | .ok _ => .ok ⟨host, port, user, keyFile, password⟩
  else if password ≠ "" then
    match w.dial host user (.passwordAuth password) with
    | .error e => .error ("SSH 连接失败: " ++ e)
    | .ok _ => .ok ⟨host, port, user, keyFile, password⟩
  else
    .error "必须提供 SSH 密钥或密码"

/-- Embedding of `NewSSHClientSmart` (src/pkg/executor/ssh.go). Besides the
result, the list of connect strategies actually attempted (user paired with
the auth credential handed to the underlying constructor) is returned, in
order. -/
def NewSSHClientSmart (w : ConnWorld) (host : String) (port : Int)
    (user keyFile password : String) :
    Except String SSHClient × List (String × AuthMethod) :=
  let rootKeyFile := "/root/.ssh/id_rsa"
  let keyFile' := if keyFile = "" then rootKeyFile else keyFile
  let try1 := ("root", AuthMethod.publicKey rootKeyFile)
  match NewSSHClientWithPassword w host port "root" rootKeyFile "" with
  | .ok c => (.ok { c with keyFile := keyFile', password := password }, [try1])
  | .error _ =>
    let afterKeyTries :=
      if keyFile' ≠ "" ∧ keyFile' ≠ rootKeyFile then
        match NewSSHClientWithPassword w host port user keyFile' "" with
        | .ok c => (some { c with password := password }, [try1, (user, .publicKey keyFile')])
        | .error _ => (none, [try1, (user, .publicKey keyFile')])
      else (none, [try1])
    match afterKeyTries with
    | (some c, tr) => (.ok c, tr)
    | (none, tr) =>
      if password ≠ "" then
        match NewSSHClientWithPassword w host port user "" password with
        | .ok c => (.ok { c with keyFile := keyFile' }, tr ++ [(user, .passwordAuth password)])
        | .error _ =>
          (.error "所有 SSH 连接方式均失败: root 密钥、用户密钥、用户密码",
           tr ++ [(user, .passwordAuth password)])
      else
        (.error "所有 SSH 连接方式均失败: root 密钥、用户密钥、用户密码", tr)

/-- Oracle for the remote side seen by `ExecuteWithRetry`: the outcome of the
k-th `Execute` call on this channel (the error text as produced by `Execute`,
stderr already folded in) and of the k-th `Reconnect`. -/
structure RetryWorld where
  exec : Nat → Except String String
  reconnect : Nat → Bool

/-- Loop of `ExecuteWithRetry` (src/pkg/executor/ssh.go). Arguments: remaining
iterations, next exec-oracle index, next reconnect-oracle index, last error
text. Returns the result together with the exec-oracle index after the loop,
i.e. the total number of times the command was executed. The 2-second sleep
between iterations has no observable effect here and is not modelled. -/
def executeWithRetryLoop (w : RetryWorld) (retries : Nat) :
    Nat → Nat → Nat → String → Except String String × Nat
  | 0, e, _, lastErr =>
    (.error ("命令执行失败（重试 " ++ natRepr retries ++ " 次）: " ++ lastErr), e)
  | remaining + 1, e, r, _ =>
    match w.exec e with
    | .ok out => (.ok out, e + 1)
    | .error err =>
      if isConnectionErrText err then
        if w.reconnect r then
          match w.exec (e + 1) with
          | .ok out => (.ok out, e + 2)
          | .error err2 => executeWithRetryLoop w retries remaining (e + 2) (r + 1) err2
        else
          executeWithRetryLoop w retries remaining (e + 1) (r + 1) err
      else
        executeWithRetryLoop w retries remaining (e + 1) r err

/-- Embedding of `ExecuteWithRetry` (src/pkg/executor/ssh.go): the result and
the number of times the command was handed to `Execute`. A nonpositive Go
`retries` runs zero iterations, so `Nat` carries the argument. -/
def ExecuteWithRetry (w : RetryWorld) (retries : Nat) : Except String String × Nat :=
  executeWithRetryLoop w retries retries 0 0 ""

/-- Whitespace test used by the embedding of strings.TrimSpace. -/
def isSpaceRune (c : Char) : Bool := c = ' ' ∨ c = '\t' ∨ c = '\n' ∨ c = '\r'

/-- Embedding of `strings.TrimSpace`. -/
def trimSpace (s : String) : String :=
  ⟨((s.data.dropWhile isSpaceRune).reverse.dropWhile isSpaceRune).reverse⟩

/-- Embedding of `ui.WaitForConfirmation` (src/unnamed/part_006): an empty
response (plain Enter) counts as yes; otherwise only the four affirmative
spellings do. -/
def WaitForConfirmation (response : String) : Bool :=
  if response = "" then true
  else response = "y" || response = "Y" || response = "yes" || response = "Yes"

/-- Embedding of `ui.WaitForDangerousConfirmation` (src/unnamed/part_006): only
the literal text yes confirms. -/
def WaitForDangerousConfirmation (response : String) : Bool := response = "yes"

/-- Oracle for the externals touched by the update/reconciliation path
(src/pkg/cluster/update.go and config_store.go): each field is the outcome of
one external interaction, in the order the code performs them. -/
structure UpdateWorld where
  clusterInfo : Except String String
  managedCheck : Except String String
  configMapFetch : Except String String
  parseClusterYaml : String → Option ClusterConfig
  secretUser : Except String String
  secretPass : Except String String
  confirmResponse : String
  installMetalLB : Except String Unit

/-- Embedding of `verifyDeployerManaged` (src/pkg/cluster/config_store.go): the
node listing filtered on the management label must succeed and be nonblank. -/
def verifyDeployerManaged (w : UpdateWorld) : Option String :=
  match w.managedCheck with
  | .error e => some ("无法检查集群标签: " ++ e)
  | .ok output =>
    if trimSpace output = "" then
      some ("此集群不是通过 k8s-deployer 部署的\n提示: 集群节点缺少标签 \x27k8s-deployer.stormdragon.io/managed=true\x27\n只有通过 k8s-deployer 部署的集群才能使用 update 命令")
    else none

/-- Embedding of `loadSensitiveInfo` (src/pkg/cluster/config_store.go): overlay
each Harbor credential only when its Secret read succeeds with nonempty text. -/
def loadSensitiveInfo (w : UpdateWorld) (cfg : ClusterConfig) : ClusterConfig :=
  let cfg₁ :=
    match w.secretUser with
    | .ok u => if u ≠ "" then { cfg with spec.harbor.username := u } else cfg
    | .error _ => cfg
  match w.secretPass with
  | .ok p => if p ≠ "" then { cfg₁ with spec.harbor.password := p } else cfg₁
  | .error _ => cfg₁

/-- Embedding of `LoadClusterConfig` (src/pkg/cluster/config_store.go): the
deployer-managed check is a hard precondition, then the primary record is
fetched and parsed, and the sensitive record is merged best-effort. The
`clusterName` argument is unused by the source as well. -/
def LoadClusterConfig (w : UpdateWorld) (_clusterName : String) : Except String ClusterConfig :=
  match verifyDeployerManaged w with
  | some e => .error e
  | none =>
    match w.configMapFetch with
    | .error e => .error ("无法获取集群配置: " ++ e ++ "\n提示: 此集群可能不是通过 k8s-deployer 部署的")
    | .ok output =>
      match w.parseClusterYaml output with
      | none => .error "解析配置失败"
      | some cfg => .ok (loadSensitiveInfo w cfg)

/-- The externally visible actions of the update path, in execution order:
`checkBGPStatus` is the MetalLB status probe at the start of `updateBGPOnly`,
`installMetalLB` is the load-balancer addon apply, `patchConfigMap` is the
persisted-record write performed by `UpdateClusterConfigMap`. -/
inductive UAct
  | checkBGPStatus
  | installMetalLB
  | patchConfigMap
deriving DecidableEq

/-- Embedding of `updateBGPOnly` (src/pkg/cluster/update.go): fails before any
remote action when the new spec has BGP disabled; otherwise probes the current
BGP state (never an error) and installs/updates MetalLB. -/
def updateBGPOnly (w : UpdateWorld) (cfg : ClusterConfig) : Except String Unit × List UAct :=
  if ¬ cfg.spec.bgp.enabled then (.error "配置中未启用 BGP，无法更新", [])
  else
    match w.installMetalLB with
    | .error e => (.error e, [.checkBGPStatus, .installMetalLB])
    | .ok _ => (.ok (), [.checkBGPStatus, .installMetalLB])

/-- The dispatch loop of `updateFull` (src/pkg/cluster/update.go): only the BGP
change kind has a registered apply routine; other kinds are skipped. -/
def applyChangesLoop (w : UpdateWorld) (newCfg : ClusterConfig) :
    List ConfigChange → Except String Unit × List UAct
  | [] => (.ok (), [])
  | c :: rest =>
    if c.type = "BGP" then
      match updateBGPOnly w newCfg with
      | (.error e, tr) => (.error e, tr)
      | (.ok _, tr) =>
        let next := applyChangesLoop w newCfg rest
        (next.1, tr ++ next.2)
    else
      applyChangesLoop w newCfg rest

/-- Embedding of `updateFull` (src/pkg/cluster/update.go). -/
def updateFull (w : UpdateWorld) (oldCfg : Option ClusterConfig) (newCfg : ClusterConfig) :
    Except String Unit × List UAct :=
  let changes := detectAllChanges oldCfg newCfg
  if changes.length = 0 then (.ok (), [])
  else applyChangesLoop w newCfg changes

/-- Tail of `UpdateCluster` (src/pkg/cluster/update.go) after cluster
verification, configuration loading and the immutable-field gate: change
detection, the confirmation gate, the apply dispatch, and the best-effort
record update (whose failure only warns, so the overall result stays nil). -/
def updateClusterTail (w : UpdateWorld) (oldCfg : Option ClusterConfig) (newCfg : ClusterConfig)
    (onlyBGP autoConfirm : Bool) : Except String Unit × List UAct :=
  let changes := if onlyBGP then detectBGPChanges oldCfg newCfg else detectAllChanges oldCfg newCfg
  if changes.length = 0 then (.ok (), [])
  else if ¬ autoConfirm ∧ ¬ WaitForConfirmation w.confirmResponse then (.ok (), [])
  else
    let applied := if onlyBGP then updateBGPOnly w newCfg else updateFull w oldCfg newCfg
    match applied with
    | (.error e, tr) => (.error e, tr)
    | (.ok _, tr) => (.ok (), tr ++ [.patchConfigMap])

/-- Embedding of `UpdateCluster` (src/pkg/cluster/update.go). When loading the
persisted configuration fails (including a failed deployer-managed check) the
source only warns, sets the old configuration to nil and skips the
immutable-field validation. -/
def UpdateCluster (w : UpdateWorld) (newCfg : ClusterConfig) (onlyBGP autoConfirm : Bool) :
    Except String Unit × List UAct :=
  match w.clusterInfo with
  | .error e => (.error ("集群验证失败: " ++ e ++ "，请确保本地 kubectl 已正确配置"), [])
  | .ok _ =>
    match LoadClusterConfig w newCfg.metadata.name with
    | .ok oldCfg =>
      if (ValidateImmutableFields oldCfg newCfg).isSome then (.error "配置验证失败", [])
      else updateClusterTail w (some oldCfg) newCfg onlyBGP autoConfirm
    | .error _ => updateClusterTail w none newCfg onlyBGP autoConfirm

/-- Embedding of the sanitisation block shared by `saveConfigToConfigMap` and
`UpdateClusterConfigMap` (src/pkg/cluster/config_store.go). Go's
`cfgCopy := *cfg` copies the struct shallowly: `Spec.Nodes` is a slice header,
so `cfgCopy.Spec.Nodes[i].SSH.Password = ""` writes through the shared backing
array into the caller's configuration, while the Harbor fields sit in the
copied struct value and stay private to the copy. The result pair is (the
configuration that gets serialized, the caller's configuration as it stands
after the call). -/
def sanitizeConfigForStore (cfg : ClusterConfig) : ClusterConfig × ClusterConfig :=
  let clearedNodes := cfg.spec.nodes.map (fun n => { n with ssh.password := "" })
  ({ cfg with
      spec.harbor.username := ""
      spec.harbor.password := ""
      spec.nodes := clearedNodes },
   { cfg with spec.nodes := clearedNodes })

/-- Embedding of the `JoinCommand` record (src/pkg/kubeadm/config.go). -/
structure JoinCommand where
  apiServerEndpoint : String
  token : String
  certificateKey : String
  caCertHash : String
deriving DecidableEq

/-- The remote commands `initFirstMaster` (src/pkg/cluster/deploy.go) can issue,
in source order: the read-only admin.conf probe; the destructive reset block
(stop kubelet, kubeadm reset, kill components, wipe /etc/kubernetes,
/var/lib/etcd and /var/lib/kubelet, delete cni interfaces, restart containerd);
the init-config upload; kubeadm init with the kube-proxy phase skipped; the
kubectl setup; and the three join-credential commands run by `GetJoinInfo`
(token create, CA hash, upload-certs). -/
inductive MasterCmd
  | checkAdminConf
  | resetNode
  | uploadInitConfig
  | kubeadmInit
  | setupKubectl
  | tokenCreate
  | caCertHash
  | uploadCerts
deriving DecidableEq

/-- Oracle for the externals of `initFirstMaster`: the SSH connect outcome, the
outcome of the k-th remote command, the reply typed at the dangerous-operation
gate, and the regexp scrape of the certificate key from the upload-certs output
(a match of `certificate key:\s+([a-f0-9]+)`, abstracted as a function of that
output). -/
structure InitMasterWorld where
  connectOk : Except String Unit
  exec : Nat → Except String String
  dangerousResponse : String
  extractCertKey : String → Option String

/-- The part of `initFirstMaster` after the already-initialized check: config
generation and upload, kubeadm init, kubectl setup, and `GetJoinInfo`.
`k` indexes the next remote command outcome, `tr` is the trace so far. -/
def initFirstMasterRest (w : InitMasterWorld) (cfg : ClusterConfig) (masterIP : String)
    (k : Nat) (tr : List MasterCmd) : Except String JoinCommand × List MasterCmd :=
  match w.exec k with
  | .error e => (.error e, tr ++ [.uploadInitConfig])
  | .ok _ =>
    match w.exec (k + 1) with
    | .error e => (.error ("kubeadm init 失败: " ++ e), tr ++ [.uploadInitConfig, .kubeadmInit])
    | .ok _ =>
      match w.exec (k + 2) with
      | .error e => (.error e, tr ++ [.uploadInitConfig, .kubeadmInit, .setupKubectl])
      | .ok _ =>
        let tr₃ := tr ++ [.uploadInitConfig, .kubeadmInit, .setupKubectl]
        match w.exec (k + 3) with
        | .error e => (.error ("创建 token 失败: " ++ e), tr₃ ++ [.tokenCreate])
        | .ok tokenOut =>
          match w.exec (k + 4) with
          | .error e => (.error ("获取 CA 证书哈希失败: " ++ e), tr₃ ++ [.tokenCreate, .caCertHash])
          | .ok hashOut =>
            match w.exec (k + 5) with
            | .error e =>
              (.error ("上传证书失败: " ++ e), tr₃ ++ [.tokenCreate, .caCertHash, .uploadCerts])
            | .ok certsOut =>
              let fullTr := tr₃ ++ [.tokenCreate, .caCertHash, .uploadCerts]
              match w.extractCertKey certsOut with
              | none => (.error "无法从输出中提取证书密钥", fullTr)
              | some key =>
                let endpoint :=
                  if cfg.spec.ha.enabled then cfg.spec.ha.vip ++ ":6443" else masterIP ++ ":6443"
                (.ok { apiServerEndpoint := endpoint, token := trimSpace tokenOut,
                       certificateKey := key, caCertHash := "sha256:" ++ trimSpace hashOut },
                 fullTr)

/-- Embedding of `initFirstMaster` (src/pkg/cluster/deploy.go). Besides the
result, the trace of remote commands issued is returned in order. -/
def initFirstMaster (w : InitMasterWorld) (cfg : ClusterConfig) (masterIP : String) :
    Except String JoinCommand × List MasterCmd :=
  match w.connectOk with
  | .error e => (.error e, [])
  | .ok _ =>
    match w.exec 0 with
    | .ok _ =>
      if ¬ WaitForDangerousConfirmation w.dangerousResponse then
        (.error "用户取消操作", [.checkAdminConf])
      else
        match w.exec 1 with
        | .error e => (.error ("重置节点失败: " ++ e), [.checkAdminConf, .resetNode])
        | .ok _ => initFirstMasterRest w cfg masterIP 2 [.checkAdminConf, .resetNode]
    | .error _ => initFirstMasterRest w cfg masterIP 1 [.checkAdminConf]

def harbor0 : HarborConfig := ⟨"", "", false⟩

def net0 : NetworkConfig := ⟨"10.244.0.0/16", "10.96.0.0/12"⟩

def hubble0 : HubbleConfig := ⟨false, ⟨false⟩, ⟨false, 0⟩⟩

def lb0 : LoadBalancerConfig := ⟨"cilium", "dsr"⟩

def node0 : NodeConfig := ⟨"master", "10.0.0.1", "m1", false, ⟨"root", 22, "", "pw"⟩⟩

def bgpOn : BGPConfig := ⟨true, 64512, [⟨"10.0.0.254", 64513⟩], ["10.0.4.100"]⟩

/-- A concrete desired configuration with BGP enabled (test fixture). -/
def cfgBGPon : ClusterConfig :=
  ⟨"k8s-deployer/v1", "Cluster", ⟨"demo"⟩,
   ⟨"v1.34.2", "registry.k8s.io", harbor0, net0, ⟨false, ""⟩, hubble0, lb0, bgpOn,
    ⟨false⟩, ⟨false⟩, [node0]⟩⟩

/-- A concrete world in which the management marker is absent: the node listing
filtered on the deployer label succeeds with blank output (test fixture). -/
def wMarkerAbsent : UpdateWorld :=
  { clusterInfo := .ok "Kubernetes control plane is running",
    managedCheck := .ok "",
    configMapFetch := .error "not found",
    parseClusterYaml := fun _ => none,
    secretUser := .error "not found",
    secretPass := .error "not found",
    confirmResponse := "",
    installMetalLB := .ok () }

/-- Claim C1, counterexample: with the management marker absent from every node
(the label query returns blank output), `UpdateCluster` does not fail as a hard
precondition error — it proceeds past the loading step, runs the BGP apply
routine and writes the persisted record, returning nil. -/
theorem c1_counterexample :
    wMarkerAbsent.managedCheck = Except.ok "" ∧ trimSpace "" = "" ∧
    UpdateCluster wMarkerAbsent cfgBGPon true true =
      (.ok (), [.checkBGPStatus, .installMetalLB, .patchConfigMap]) := by
  exact ⟨rfl, rfl, rfl⟩

/-- Claim C1 (amended): when loading the persisted state fails the
deployer-managed check (the marker is absent), `LoadClusterConfig` itself fails
with the ownership error, but `UpdateCluster` only warns, drops the old
configuration, skips the immutable-field check and proceeds with change
detection and apply. -/
theorem c1_amended (w : UpdateWorld) (newCfg : ClusterConfig) (onlyBGP autoConfirm : Bool)
    (s out : String) (hinfo : w.clusterInfo = .ok s)
    (hcheck : w.managedCheck = .ok out) (hblank : trimSpace out = "") :
    (∃ e, LoadClusterConfig w newCfg.metadata.name = .error e) ∧
    UpdateCluster w newCfg onlyBGP autoConfirm =
      updateClusterTail w none newCfg onlyBGP autoConfirm := by
  have hver : ∃ m, verifyDeployerManaged w = some m := by
    unfold verifyDeployerManaged
    rw [hcheck]
    simp [hblank]
  obtain ⟨m, hm⟩ := hver
  have he : LoadClusterConfig w newCfg.metadata.name = .error m := by
    unfold LoadClusterConfig
    rw [hm]
  refine ⟨⟨m, he⟩, ?_⟩
  unfold UpdateCluster
  rw [hinfo, he]

/-- Claim C1 (amended), witness at a concrete world and configuration. -/
theorem c1_amended_witness :
    (∃ e, LoadClusterConfig wMarkerAbsent cfgBGPon.metadata.name = .error e) ∧
    UpdateCluster wMarkerAbsent cfgBGPon true true =
      updateClusterTail wMarkerAbsent none cfgBGPon true true :=
  c1_amended wMarkerAbsent cfgBGPon true true
    "Kubernetes control plane is running" "" rfl rfl rfl

/-- A concrete retry world: every execution fails with a legitimate nonzero
remote exit whose wrapped text carries no connection-level marker (fixture). -/
def wNonConnFailure : RetryWorld :=
  { exec := fun _ => .error "命令执行失败: Process exited with status 1\n标准错误: build failed",
    reconnect := fun _ => false }

/-- Claim C2, counterexample: a failure that is not classified as
connection-level is retried anyway — with the fixed bound of 3 the command is
handed to Execute three times, not once. -/
theorem c2_counterexample :
    isConnectionErrText "命令执行失败: Process exited with status 1\n标准错误: build failed" = false ∧
    (ExecuteWithRetry wNonConnFailure 3).2 = 3 := by
  exact ⟨rfl, rfl⟩

theorem executeWithRetryLoop_nonconn (w : RetryWorld) (retries : Nat)
    (hall : ∀ k, ∃ e, w.exec k = .error e ∧ isConnectionErrText e = false) :
    ∀ remaining e r lastErr,
      (executeWithRetryLoop w retries remaining e r lastErr).2 = e + remaining ∧
      ∃ m, (executeWithRetryLoop w retries remaining e r lastErr).1 = .error m := by
  intro remaining
  induction remaining with
  | zero => intro e r lastErr; exact ⟨rfl, _, rfl⟩
  | succ n ih =>
    intro e r lastErr
    obtain ⟨err, herr, hconn⟩ := hall e
    have h₁ : executeWithRetryLoop w retries (n + 1) e r lastErr =
        executeWithRetryLoop w retries n (e + 1) r err := by
      conv_lhs => rw [executeWithRetryLoop]
      rw [herr]
      simp [hconn]
    rw [h₁]
    obtain ⟨hc, m, hm⟩ := ih (e + 1) r err
    exact ⟨by omega, m, hm⟩

/-- Claim C2 (amended): every failure is retried up to the fixed bound — when
every execution outcome is a failure not classified as connection-level, the
command is executed exactly `retries` times (not once) before the aggregated
error is returned; a connection-classified failure followed by a successful
reconnect additionally triggers an immediate in-iteration re-execution whose
success is returned directly. -/
theorem c2_amended (w : RetryWorld) (retries : Nat)
    (hall : ∀ k, ∃ e, w.exec k = .error e ∧ isConnectionErrText e = false) :
    ((ExecuteWithRetry w retries).2 = retries ∧
     ∃ m, (ExecuteWithRetry w retries).1 = .error m) ∧
    (∀ w' : RetryWorld, ∀ n e out, w'.exec 0 = .error e → isConnectionErrText e = true →
      w'.reconnect 0 = true → w'.exec 1 = .ok out →
      ExecuteWithRetry w' (n + 1) = (.ok out, 2)) := by
  constructor
  · have := executeWithRetryLoop_nonconn w retries hall retries 0 0 ""
    exact ⟨by simpa [ExecuteWithRetry] using this.1, this.2⟩
  · intro w' n e out h0 hconn hrec h1
    unfold ExecuteWithRetry executeWithRetryLoop
    rw [h0]
    simp [hconn, hrec, h1]

/-- Claim C2 (amended), witness at the concrete non-connection-failure world and
at a concrete connection-failure world. -/
theorem c2_amended_witness :
    (((ExecuteWithRetry wNonConnFailure 3).2 = 3 ∧
      ∃ m, (ExecuteWithRetry wNonConnFailure 3).1 = .error m) ∧
     (∀ w' : RetryWorld, ∀ n e out, w'.exec 0 = .error e → isConnectionErrText e = true →
       w'.reconnect 0 = true → w'.exec 1 = .ok out →
       ExecuteWithRetry w' (n + 1) = (.ok out, 2))) :=
  c2_amended wNonConnFailure 3 (fun _ => ⟨_, rfl, rfl⟩)

/-- Claim C3: the immutable-field check errs exactly when the cluster name, pod
subnet, service subnet or version differs; each violated field among the four
contributes its message to the aggregated error, and the number of messages
equals the number of violated fields (every violation is listed, not just the
first); and on a violation `UpdateCluster` aborts with the validation error
before the apply dispatch or the record write, with an empty action trace. -/
theorem c3_immutable_fields (oldCfg newCfg : ClusterConfig) (w : UpdateWorld)
    (onlyBGP autoConfirm : Bool) :
    ((ValidateImmutableFields oldCfg newCfg).isSome ↔
      (oldCfg.metadata.name ≠ newCfg.metadata.name ∨
       oldCfg.spec.networking.podSubnet ≠ newCfg.spec.networking.podSubnet ∨
       oldCfg.spec.networking.serviceSubnet ≠ newCfg.spec.networking.serviceSubnet ∨
       oldCfg.spec.version ≠ newCfg.spec.version)) ∧
    (oldCfg.metadata.name ≠ newCfg.metadata.name →
      "集群名称不可修改" ∈ immutableFieldErrors oldCfg newCfg) ∧
    (oldCfg.spec.networking.podSubnet ≠ newCfg.spec.networking.podSubnet →
      ("Pod 网段不可修改 (当前: " ++ oldCfg.spec.networking.podSubnet ++
       ", 尝试修改为: " ++ newCfg.spec.networking.podSubnet ++ ")") ∈
        immutableFieldErrors oldCfg newCfg) ∧
    (oldCfg.spec.networking.serviceSubnet ≠ newCfg.spec.networking.serviceSubnet →
      ("Service 网段不可修改 (当前: " ++ oldCfg.spec.networking.serviceSubnet ++
       ", 尝试修改为: " ++ newCfg.spec.networking.serviceSubnet ++ ")") ∈
        immutableFieldErrors oldCfg newCfg) ∧
    (oldCfg.spec.version ≠ newCfg.spec.version →
      ("Kubernetes 版本不可通过 update 命令修改，请使用 upgrade 命令 (当前: " ++
       oldCfg.spec.version ++ ", 尝试修改为: " ++ newCfg.spec.version ++ ")") ∈
        immutableFieldErrors oldCfg newCfg) ∧
    ((immutableFieldErrors oldCfg newCfg).length =
      (if oldCfg.metadata.name ≠ newCfg.metadata.name then 1 else 0) +
      (if oldCfg.spec.networking.podSubnet ≠ newCfg.spec.networking.podSubnet then 1 else 0) +
      (if oldCfg.spec.networking.serviceSubnet ≠ newCfg.spec.networking.serviceSubnet then 1 else 0) +
      (if oldCfg.spec.version ≠ newCfg.spec.version then 1 else 0)) ∧
    (∀ s, w.clusterInfo = .ok s →
      LoadClusterConfig w newCfg.metadata.name = .ok oldCfg →
      (ValidateImmutableFields oldCfg newCfg).isSome →
      UpdateCluster w newCfg onlyBGP autoConfirm = (.error "配置验证失败", [])) := by
  refine ⟨?_, ?_, ?_, ?_, ?_, ?_, ?_⟩
  · by_cases h1 : oldCfg.metadata.name = newCfg.metadata.name <;>
    by_cases h2 : oldCfg.spec.networking.podSubnet = newCfg.spec.networking.podSubnet <;>
    by_cases h3 : oldCfg.spec.networking.serviceSubnet = newCfg.spec.networking.serviceSubnet <;>
    by_cases h4 : oldCfg.spec.version = newCfg.spec.version <;>
    simp [ValidateImmutableFields, immutableFieldErrors, h1, h2, h3, h4]
  · intro h
    simp [immutableFieldErrors, h]
  · intro h
    simp [immutableFieldErrors, h]
  · intro h
    simp [immutableFieldErrors, h]
  · intro h
    simp [immutableFieldErrors, h]
  · by_cases h1 : oldCfg.metadata.name = newCfg.metadata.name <;>
    by_cases h2 : oldCfg.spec.networking.podSubnet = newCfg.spec.networking.podSubnet <;>
    by_cases h3 : oldCfg.spec.networking.serviceSubnet = newCfg.spec.networking.serviceSubnet <;>
    by_cases h4 : oldCfg.spec.version = newCfg.spec.version <;>
    simp [immutableFieldErrors, h1, h2, h3, h4]
  · intro s hinfo hload hv
    unfold UpdateCluster
    rw [hinfo, hload]
    simp [hv]

/-- A configuration equal to `cfgBGPon` except in pod subnet (test fixture). -/
def cfgPodChanged : ClusterConfig :=
  ⟨"k8s-deployer/v1", "Cluster", ⟨"demo"⟩,
   ⟨"v1.34.2", "registry.k8s.io", harbor0, ⟨"10.200.0.0/16", "10.96.0.0/12"⟩,
    ⟨false, ""⟩, hubble0, lb0, bgpOn, ⟨false⟩, ⟨false⟩, [node0]⟩⟩

/-- A concrete world in which the persisted configuration loads as `cfgBGPon`
(test fixture). -/
def wLoadsOld : UpdateWorld :=
  { clusterInfo := .ok "Kubernetes control plane is running",
    managedCheck := .ok "demo-master-01 Ready",
    configMapFetch := .ok "payload",
    parseClusterYaml := fun _ => some cfgBGPon,
    secretUser := .error "not found",
    secretPass := .error "not found",
    confirmResponse := "n",
    installMetalLB := .ok () }

/-- Claim C3, witness: at a concrete pair differing in pod subnet the check
errs, the pod-subnet message is listed, the message count is one, and the
update aborts with an empty action trace. -/
theorem c3_immutable_fields_witness :
    ((ValidateImmutableFields cfgBGPon cfgPodChanged).isSome) ∧
    (("Pod 网段不可修改 (当前: " ++ cfgBGPon.spec.networking.podSubnet ++
      ", 尝试修改为: " ++ cfgPodChanged.spec.networking.podSubnet ++ ")") ∈
       immutableFieldErrors cfgBGPon cfgPodChanged) ∧
    ((immutableFieldErrors cfgBGPon cfgPodChanged).length = 1) ∧
    UpdateCluster wLoadsOld cfgPodChanged false false = (.error "配置验证失败", []) := by
  have h := c3_immutable_fields cfgBGPon cfgPodChanged wLoadsOld false false
  refine ⟨?_, ?_, ?_, ?_⟩
  · exact h.1.mpr (by decide)
  · exact h.2.2.1 (by decide)
  · rw [h.2.2.2.2.2.1]
    decide
  · exact h.2.2.2.2.2.2 "Kubernetes control plane is running" rfl rfl (h.1.mpr (by decide))

/-- Claim C4: with BGP enabled on both sides and equal local ASN, the BGP diff
consists exactly of a peer-list entry when the peer lists differ in length and
an IP-pool entry when the pools differ in length (both described by counts);
hence a pair differing only in peer-list length yields exactly that one change
and zero immutable-field violations, and value edits inside unchanged-length
lists yield no change at all. -/
theorem c4_bgp_diff (oldCfg newCfg : ClusterConfig)
    (hold : oldCfg.spec.bgp.enabled = true)
    (hnew : newCfg.spec.bgp.enabled = true)
    (hasn : oldCfg.spec.bgp.localASN = newCfg.spec.bgp.localASN) :
    (detectBGPChanges (some oldCfg) newCfg =
      (if oldCfg.spec.bgp.peers.length ≠ newCfg.spec.bgp.peers.length then
        [{ type := "BGP", description := "更新 BGP Peer 配置",
           oldValue := natRepr oldCfg.spec.bgp.peers.length ++ " 个 Peer",
           newValue := natRepr newCfg.spec.bgp.peers.length ++ " 个 Peer",
           affectedComponent := "BGP Peering", requiresRestart := false }] else []) ++
      (if oldCfg.spec.bgp.loadBalancerIPs.length ≠ newCfg.spec.bgp.loadBalancerIPs.length then
        [{ type := "BGP", description := "更新 LoadBalancer IP 池",
           oldValue := natRepr oldCfg.spec.bgp.loadBalancerIPs.length ++ " 个 IP",
           newValue := natRepr newCfg.spec.bgp.loadBalancerIPs.length ++ " 个 IP",
           affectedComponent := "IP Pool", requiresRestart := false }] else [])) ∧
    (oldCfg.metadata.name = newCfg.metadata.name →
     oldCfg.spec.networking.podSubnet = newCfg.spec.networking.podSubnet →
     oldCfg.spec.networking.serviceSubnet = newCfg.spec.networking.serviceSubnet →
     oldCfg.spec.version = newCfg.spec.version →
     oldCfg.spec.bgp.loadBalancerIPs.length = newCfg.spec.bgp.loadBalancerIPs.length →
     oldCfg.spec.bgp.peers.length ≠ newCfg.spec.bgp.peers.length →
     detectBGPChanges (some oldCfg) newCfg =
       [{ type := "BGP", description := "更新 BGP Peer 配置",
          oldValue := natRepr oldCfg.spec.bgp.peers.length ++ " 个 Peer",
          newValue := natRepr newCfg.spec.bgp.peers.length ++ " 个 Peer",
          affectedComponent := "BGP Peering", requiresRestart := false }] ∧
     immutableFieldErrors oldCfg newCfg = [] ∧
     ValidateImmutableFields oldCfg newCfg = none) ∧
    (oldCfg.spec.bgp.peers.length = newCfg.spec.bgp.peers.length →
     oldCfg.spec.bgp.loadBalancerIPs.length = newCfg.spec.bgp.loadBalancerIPs.length →
     detectBGPChanges (some oldCfg) newCfg = []) := by
  have hmain : detectBGPChanges (some oldCfg) newCfg =
      (if oldCfg.spec.bgp.peers.length ≠ newCfg.spec.bgp.peers.length then
        [{ type := "BGP", description := "更新 BGP Peer 配置",
           oldValue := natRepr oldCfg.spec.bgp.peers.length ++ " 个 Peer",
           newValue := natRepr newCfg.spec.bgp.peers.length ++ " 个 Peer",
           affectedComponent := "BGP Peering", requiresRestart := false }] else []) ++
      (if oldCfg.spec.bgp.loadBalancerIPs.length ≠ newCfg.spec.bgp.loadBalancerIPs.length then
        [{ type := "BGP", description := "更新 LoadBalancer IP 池",
           oldValue := natRepr oldCfg.spec.bgp.loadBalancerIPs.length ++ " 个 IP",
           newValue := natRepr newCfg.spec.bgp.loadBalancerIPs.length ++ " 个 IP",
           affectedComponent := "IP Pool", requiresRestart := false }] else []) := by
    unfold detectBGPChanges
    simp [hold, hnew, hasn]
  refine ⟨hmain, ?_, ?_⟩
  · intro h1 h2 h3 h4 hip hpeer
    refine ⟨?_, ?_, ?_⟩
    · rw [hmain]
      simp [hpeer, hip]
    · simp [immutableFieldErrors, h1, h2, h3, h4]
    · simp [ValidateImmutableFields, immutableFieldErrors, h1, h2, h3, h4]
  · intro hpeer hip
    rw [hmain]
    simp [hpeer, hip]

/-- The old configuration for the C4 witness: `cfgBGPon` with one extra BGP
peer (test fixture). -/
def cfgTwoPeers : ClusterConfig :=
  ⟨"k8s-deployer/v1", "Cluster", ⟨"demo"⟩,
   ⟨"v1.34.2", "registry.k8s.io", harbor0, net0, ⟨false, ""⟩, hubble0, lb0,
    ⟨true, 64512, [⟨"10.0.0.254", 64513⟩, ⟨"10.0.0.253", 64514⟩], ["10.0.4.100"]⟩,
    ⟨false⟩, ⟨false⟩, [node0]⟩⟩

/-- Claim C4, witness: the concrete pair differing only in peer-list length
produces exactly the single count-difference change and zero violations. -/
theorem c4_bgp_diff_witness :
    detectBGPChanges (some cfgTwoPeers) cfgBGPon =
      [{ type := "BGP", description := "更新 BGP Peer 配置",
         oldValue := natRepr cfgTwoPeers.spec.bgp.peers.length ++ " 个 Peer",
         newValue := natRepr cfgBGPon.spec.bgp.peers.length ++ " 个 Peer",
         affectedComponent := "BGP Peering", requiresRestart := false }] ∧
    immutableFieldErrors cfgTwoPeers cfgBGPon = [] ∧
    ValidateImmutableFields cfgTwoPeers cfgBGPon = none :=
  (c4_bgp_diff cfgTwoPeers cfgBGPon rfl rfl rfl).2.1
    rfl rfl rfl rfl rfl (by decide)

theorem isPrefixOf_append_self : ∀ l t : List Char, l.isPrefixOf (l ++ t) = true := by
  intro l
  induction l with
  | nil => intro t; simp [List.isPrefixOf]
  | cons a as ih => intro t; simp [List.isPrefixOf, ih]

theorem listContainsSub_of_isPrefixOf (sub l : List Char) (h : sub.isPrefixOf l = true) :
    listContainsSub sub l = true := by
  cases l <;> simp [listContainsSub, h]

theorem listContainsSub_append (sub : List Char) :
    ∀ pre post : List Char, listContainsSub sub (pre ++ (sub ++ post)) = true := by
  intro pre
  induction pre with
  | nil =>
    intro post
    simp only [List.nil_append]
    exact listContainsSub_of_isPrefixOf _ _ (isPrefixOf_append_self sub post)
  | cons a pre ih =>
    intro post
    simp only [List.cons_append, listContainsSub]
    have h3 : pre.append (sub ++ post) = pre ++ (sub ++ post) := rfl
    rw [h3, ih post]
    simp

/-- Claim C8: with HA disabled the generated control-plane endpoint is the
first master's address on port 6443; with HA enabled it is always the VIP on
port 6443 (whatever local address is passed); the rendered document carries the
chosen endpoint verbatim on its controlPlaneEndpoint line; and validation
rejects an HA-enabled configuration with fewer than 3 master nodes (before the
VIP checks, for every ParseIP behaviour). -/
theorem c8_endpoint_and_ha (cfg : ClusterConfig) (parseIPOk : String → Bool) :
    (cfg.spec.ha.enabled = false →
      (GenerateInitConfig cfg (getFirstMasterIP cfg)).controlPlaneEndpoint =
        getFirstMasterIP cfg ++ ":6443") ∧
    (∀ localIP, cfg.spec.ha.enabled = true →
      (GenerateInitConfig cfg localIP).controlPlaneEndpoint = cfg.spec.ha.vip ++ ":6443") ∧
    (∀ p : InitConfig,
      strContains (renderInitTemplate p)
        ("controlPlaneEndpoint: \"" ++ p.controlPlaneEndpoint ++ "\"\n") = true) ∧
    (cfg.spec.ha.enabled = true →
      cfg.spec.nodes.countP (fun n => n.role = "master") < 3 →
      validateHA parseIPOk cfg =
        some ("高可用模式至少需要 3 个 Master 节点，当前只有 " ++
          natRepr (cfg.spec.nodes.countP (fun n => n.role = "master")) ++ " 个")) := by
  refine ⟨?_, ?_, ?_, ?_⟩
  · intro h
    unfold GenerateInitConfig
    simp [h]
  · intro localIP h
    unfold GenerateInitConfig
    simp [h]
  · intro p
    unfold strContains renderInitTemplate
    have key := listContainsSub_append
      ("controlPlaneEndpoint: \"" ++ p.controlPlaneEndpoint ++ "\"\n").data
      ("apiVersion: kubeadm.k8s.io/v1beta4\n" ++ "kind: ClusterConfiguration\n" ++
        "kubernetesVersion: " ++ p.version ++ "\n" ++ "imageRepository: " ++
        p.imageRepository ++ "\n").data
      ("clusterName: " ++ p.clusterName ++ "\n" ++
        "certificatesDir: /etc/kubernetes/pki\n" ++
        "caCertificateValidityPeriod: 876000h0m0s\n" ++
        "certificateValidityPeriod: 876000h0m0s\n" ++
        "encryptionAlgorithm: RSA-2048\n" ++
        "networking:\n" ++
        "  dnsDomain: cluster.local\n" ++
        "  podSubnet: " ++ p.podSubnet ++ "\n" ++
        "  serviceSubnet: " ++ p.serviceSubnet ++ "\n" ++
        "apiServer:\n" ++
        "  certSANs:" ++ (if p.vip ≠ "" then "\n  - \"" ++ p.vip ++ "\"" else "") ++ "\n  " ++
        String.join (p.masterIPs.map (fun ip => "- \"" ++ ip ++ "\"\n  ")) ++
        "extraArgs:\n" ++
        "  - name: service-node-port-range\n" ++
        "    value: \"1-65535\"\n" ++
        "etcd:\n" ++
        "  local:\n" ++
        "    dataDir: /var/lib/etcd\n" ++
        "---\n" ++
        "apiVersion: kubeadm.k8s.io/v1beta4\n" ++
        "kind: InitConfiguration\n" ++
        "localAPIEndpoint:\n" ++
        "  advertiseAddress: " ++ p.localIP ++ "\n" ++
        "  bindPort: 6443\n" ++
        "nodeRegistration:\n" ++
        "  criSocket: unix:///run/containerd/containerd.sock\n" ++
        "  kubeletExtraArgs:\n" ++
        "  - name: cgroup-driver\n" ++
        "    value: systemd\n" ++
        "---\n" ++
        "apiVersion: kubelet.config.k8s.io/v1beta1\n" ++
        "kind: KubeletConfiguration\n" ++
        "cgroupDriver: systemd\n").data
    simp only [string_append_data, List.append_assoc] at key ⊢
    exact key
  · intro hen hcount
    unfold validateHA
    simp [hen, hcount]

/-- A concrete HA-enabled configuration with a single master (test fixture). -/
def cfgHAone : ClusterConfig :=
  ⟨"k8s-deployer/v1", "Cluster", ⟨"demo"⟩,
   ⟨"v1.34.2", "registry.k8s.io", harbor0, net0, ⟨true, "10.0.0.100"⟩, hubble0, lb0,
    ⟨false, 0, [], []⟩, ⟨false⟩, ⟨false⟩, [node0]⟩⟩

/-- Claim C8, witness: concrete endpoints with HA off and on, and the concrete
rejection of a 1-master HA configuration. -/
theorem c8_endpoint_and_ha_witness :
    (GenerateInitConfig cfgBGPon (getFirstMasterIP cfgBGPon)).controlPlaneEndpoint =
      getFirstMasterIP cfgBGPon ++ ":6443" ∧
    (GenerateInitConfig cfgHAone "10.0.0.1").controlPlaneEndpoint =
      cfgHAone.spec.ha.vip ++ ":6443" ∧
    validateHA (fun _ => true) cfgHAone =
      some ("高可用模式至少需要 3 个 Master 节点，当前只有 " ++
        natRepr (cfgHAone.spec.nodes.countP (fun n => n.role = "master")) ++ " 个") :=
  ⟨(c8_endpoint_and_ha cfgBGPon (fun _ => true)).1 rfl,
   (c8_endpoint_and_ha cfgHAone (fun _ => true)).2.1 "10.0.0.1" rfl,
   (c8_endpoint_and_ha cfgHAone (fun _ => true)).2.2.2 rfl (by decide)⟩

/-- Claim C10: when auto-confirm is off and the typed response is not an
affirmative, `UpdateCluster` returns nil — success, not a user-cancelled
error — with no apply action and no record write; and the confirmation helper
accepts exactly the empty response (plain Enter) and the four affirmative
spellings. -/
theorem c10_decline_is_nil (w : UpdateWorld) (newCfg : ClusterConfig) (onlyBGP : Bool)
    (s : String) (hinfo : w.clusterInfo = .ok s)
    (hdecl : WaitForConfirmation w.confirmResponse = false)
    (himm : ∀ oldCfg, LoadClusterConfig w newCfg.metadata.name = .ok oldCfg →
      ValidateImmutableFields oldCfg newCfg = none) :
    UpdateCluster w newCfg onlyBGP false = (.ok (), []) ∧
    (∀ r, WaitForConfirmation r = true ↔
      (r = "" ∨ r = "y" ∨ r = "Y" ∨ r = "yes" ∨ r = "Yes")) := by
  constructor
  · have htail : ∀ oldCfg, updateClusterTail w oldCfg newCfg onlyBGP false = (.ok (), []) := by
      intro oldCfg
      unfold updateClusterTail
      by_cases hc : (if onlyBGP then detectBGPChanges oldCfg newCfg
          else detectAllChanges oldCfg newCfg).length = 0
      · simp [hc]
      · simp [hc, hdecl]
    unfold UpdateCluster
    rw [hinfo]
    cases hload : LoadClusterConfig w newCfg.metadata.name with
    | error e => exact htail none
    | ok oldCfg =>
      have := himm oldCfg hload
      simp [this]
      exact htail (some oldCfg)
  · intro r
    unfold WaitForConfirmation
    by_cases h : r = ""
    · simp [h]
    · simp [h]
      tauto

/-- Claim C10, witness: at the concrete world whose response is n and whose
persisted configuration loads as `cfgBGPon`, updating to `cfgTwoPeers` (a
nonempty change list) returns nil with an empty action trace. -/
theorem c10_decline_is_nil_witness :
    UpdateCluster wLoadsOld cfgTwoPeers true false = (.ok (), []) ∧
    (∀ r, WaitForConfirmation r = true ↔
      (r = "" ∨ r = "y" ∨ r = "Y" ∨ r = "yes" ∨ r = "Yes")) :=
  c10_decline_is_nil wLoadsOld cfgTwoPeers true
    "Kubernetes control plane is running" rfl rfl
    (fun oldCfg h => by
      have : oldCfg = cfgBGPon := by
        have h' : LoadClusterConfig wLoadsOld cfgTwoPeers.metadata.name = .ok cfgBGPon := rfl
        rw [h'] at h
        exact ((Except.ok.injEq _ _).mp h.symm).symm.symm
      rw [this]
      rfl)

/-- Claim C6: when the control-plane marker probe finds an existing
installation and the strongly-worded gate (which accepts only the literal text
yes) is declined, `initFirstMaster` issues no further remote command — in
particular no reset, wipe or re-init — and returns the dedicated user-cancelled
error, not one of the wrapped generic failures. -/
theorem c6_decline_leaves_state (w : InitMasterWorld) (cfg : ClusterConfig)
    (masterIP : String) (s : String)
    (hconn : w.connectOk = .ok ())
    (hmarker : w.exec 0 = .ok s)
    (hdecl : w.dangerousResponse ≠ "yes") :
    initFirstMaster w cfg masterIP = (.error "用户取消操作", [.checkAdminConf]) ∧
    MasterCmd.resetNode ∉ (initFirstMaster w cfg masterIP).2 ∧
    MasterCmd.kubeadmInit ∉ (initFirstMaster w cfg masterIP).2 ∧
    (∀ r, WaitForDangerousConfirmation r = true ↔ r = "yes") := by
  have hmain : initFirstMaster w cfg masterIP = (.error "用户取消操作", [.checkAdminConf]) := by
    unfold initFirstMaster
    rw [hconn, hmarker]
    simp [WaitForDangerousConfirmation, hdecl]
  refine ⟨hmain, ?_, ?_, ?_⟩
  · rw [hmain]; decide
  · rw [hmain]; decide
  · intro r; unfold WaitForDangerousConfirmation; simp

/-- A concrete first-master world: connected, marker present, confirmation
declined with the reply n (test fixture). -/
def wInitDeclined : InitMasterWorld :=
  { connectOk := .ok (),
    exec := fun _ => .ok "",
    dangerousResponse := "n",
    extractCertKey := fun _ => none }

/-- Claim C6, witness at the concrete declined world. -/
theorem c6_decline_leaves_state_witness :
    initFirstMaster wInitDeclined cfgBGPon "10.0.0.1" =
      (.error "用户取消操作", [.checkAdminConf]) ∧
    MasterCmd.resetNode ∉ (initFirstMaster wInitDeclined cfgBGPon "10.0.0.1").2 ∧
    MasterCmd.kubeadmInit ∉ (initFirstMaster wInitDeclined cfgBGPon "10.0.0.1").2 ∧
    (∀ r, WaitForDangerousConfirmation r = true ↔ r = "yes") :=
  c6_decline_leaves_state wInitDeclined cfgBGPon "10.0.0.1" "" rfl rfl (by decide)

/-- Claim C7: the smart connect helper attempts, in order, (a) root with the
managed key path, (b) the supplied user with the supplied key (when one is
supplied and it is not the managed path), (c) the supplied user with the
supplied password (when one is supplied); the attempt list is always a
subsequence of that three-step ladder, the first attempt is always (a), each
success returns immediately, and in particular a channel whose key attempts
fail but whose password works connects through the password strategy. -/
theorem c7_smart_connect (w : ConnWorld) (host : String) (port : Int)
    (user keyFile password : String) :
    ((NewSSHClientSmart w host port user keyFile password).2.head? =
      some ("root", AuthMethod.publicKey "/root/.ssh/id_rsa")) ∧
    List.Sublist (NewSSHClientSmart w host port user keyFile password).2
      [("root", AuthMethod.publicKey "/root/.ssh/id_rsa"),
       (user, AuthMethod.publicKey (if keyFile = "" then "/root/.ssh/id_rsa" else keyFile)),
       (user, AuthMethod.passwordAuth password)] ∧
    (∀ c, NewSSHClientWithPassword w host port "root" "/root/.ssh/id_rsa" "" = .ok c →
      NewSSHClientSmart w host port user keyFile password =
        (.ok { c with
                keyFile := (if keyFile = "" then "/root/.ssh/id_rsa" else keyFile)
                password := password },
         [("root", AuthMethod.publicKey "/root/.ssh/id_rsa")])) ∧
    (∀ e c, password ≠ "" →
      NewSSHClientWithPassword w host port "root" "/root/.ssh/id_rsa" "" = .error e →
      (∀ c', NewSSHClientWithPassword w host port user
        (if keyFile = "" then "/root/.ssh/id_rsa" else keyFile) "" ≠ .ok c') →
      NewSSHClientWithPassword w host port user "" password = .ok c →
      (NewSSHClientSmart w host port user keyFile password).1 =
        .ok { c with keyFile := if keyFile = "" then "/root/.ssh/id_rsa" else keyFile }) := by
  have hsk : ∀ u kf pw, NewSSHClientSmart w host port u kf pw =
      (match NewSSHClientWithPassword w host port "root" "/root/.ssh/id_rsa" "" with
       | .ok c => (.ok { c with
                          keyFile := (if kf = "" then "/root/.ssh/id_rsa" else kf)
                          password := pw },
                   [("root", AuthMethod.publicKey "/root/.ssh/id_rsa")])
       | .error _ =>
         match (if (if kf = "" then "/root/.ssh/id_rsa" else kf) ≠ "" ∧
                   (if kf = "" then "/root/.ssh/id_rsa" else kf) ≠ "/root/.ssh/id_rsa" then
                 match NewSSHClientWithPassword w host port u
                     (if kf = "" then "/root/.ssh/id_rsa" else kf) "" with
                 | .ok c => (some { c with password := pw },
                     [("root", AuthMethod.publicKey "/root/.ssh/id_rsa"),
                      (u, AuthMethod.publicKey (if kf = "" then "/root/.ssh/id_rsa" else kf))])
                 | .error _ => (none,
                     [("root", AuthMethod.publicKey "/root/.ssh/id_rsa"),
                      (u, AuthMethod.publicKey (if kf = "" then "/root/.ssh/id_rsa" else kf))])
               else (none, [("root", AuthMethod.publicKey "/root/.ssh/id_rsa")])) with
         | (some c, tr) => (.ok c, tr)
         | (none, tr) =>
           if pw ≠ "" then
             match NewSSHClientWithPassword w host port u "" pw with
             | .ok c => (.ok { c with keyFile := (if kf = "" then "/root/.ssh/id_rsa" else kf) },
                 tr ++ [(u, AuthMethod.passwordAuth pw)])
             | .error _ =>
               (.error "所有 SSH 连接方式均失败: root 密钥、用户密钥、用户密码",
                tr ++ [(u, AuthMethod.passwordAuth pw)])
           else
             (.error "所有 SSH 连接方式均失败: root 密钥、用户密钥、用户密码", tr)) := by
    intro u kf pw
    rfl
  refine ⟨?_, ?_, ?_, ?_⟩
  · rw [hsk]
    cases h1 : NewSSHClientWithPassword w host port "root" "/root/.ssh/id_rsa" "" with
    | ok c => rfl
    | error e =>
      by_cases hk : (if keyFile = "" then "/root/.ssh/id_rsa" else keyFile) ≠ "" ∧
          (if keyFile = "" then "/root/.ssh/id_rsa" else keyFile) ≠ "/root/.ssh/id_rsa"
      · rw [if_pos hk]
        cases h2 : NewSSHClientWithPassword w host port user
            (if keyFile = "" then "/root/.ssh/id_rsa" else keyFile) "" with
        | ok c => rfl
        | error e2 =>
          dsimp only
          by_cases hp : password ≠ ""
          · rw [if_pos hp]
            cases h3 : NewSSHClientWithPassword w host port user "" password with
            | ok c => rfl
            | error e3 => rfl
          · rw [if_neg hp]
            rfl
      · rw [if_neg hk]
        dsimp only
        by_cases hp : password ≠ ""
        · rw [if_pos hp]
          cases h3 : NewSSHClientWithPassword w host port user "" password with
          | ok c => rfl
          | error e3 => rfl
        · rw [if_neg hp]
          rfl
  · rw [hsk]
    cases h1 : NewSSHClientWithPassword w host port "root" "/root/.ssh/id_rsa" "" with
    | ok c => exact List.Sublist.cons₂ _ (List.nil_sublist _)
    | error e =>
      by_cases hk : (if keyFile = "" then "/root/.ssh/id_rsa" else keyFile) ≠ "" ∧
          (if keyFile = "" then "/root/.ssh/id_rsa" else keyFile) ≠ "/root/.ssh/id_rsa"
      · rw [if_pos hk]
        cases h2 : NewSSHClientWithPassword w host port user
            (if keyFile = "" then "/root/.ssh/id_rsa" else keyFile) "" with
        | ok c => exact List.Sublist.cons₂ _ (List.Sublist.cons₂ _ (List.nil_sublist _))
        | error e2 =>
          dsimp only
          by_cases hp : password ≠ ""
          · rw [if_pos hp]
            cases h3 : NewSSHClientWithPassword w host port user "" password with
            | ok c =>
              simp only [List.cons_append, List.nil_append]
              exact List.Sublist.cons₂ _ (List.Sublist.cons₂ _
                (List.Sublist.cons₂ _ (List.nil_sublist _)))
            | error e3 =>
              simp only [List.cons_append, List.nil_append]
              exact List.Sublist.cons₂ _ (List.Sublist.cons₂ _
                (List.Sublist.cons₂ _ (List.nil_sublist _)))
          · rw [if_neg hp]
            exact List.Sublist.cons₂ _ (List.Sublist.cons₂ _ (List.nil_sublist _))
      · rw [if_neg hk]
        dsimp only
        by_cases hp : password ≠ ""
        · rw [if_pos hp]
          cases h3 : NewSSHClientWithPassword w host port user "" password with
          | ok c =>
            simp only [List.cons_append, List.nil_append]
            exact List.Sublist.cons₂ _ (List.Sublist.cons _
              (List.Sublist.cons₂ _ (List.nil_sublist _)))
          | error e3 =>
            simp only [List.cons_append, List.nil_append]
            exact List.Sublist.cons₂ _ (List.Sublist.cons _
              (List.Sublist.cons₂ _ (List.nil_sublist _)))
        · rw [if_neg hp]
          exact List.Sublist.cons₂ _ (List.nil_sublist _)
  · intro c h1
    rw [hsk, h1]
  · intro e c hp h1 h2 h3
    rw [hsk, h1]
    by_cases hk : (if keyFile = "" then "/root/.ssh/id_rsa" else keyFile) ≠ "" ∧
        (if keyFile = "" then "/root/.ssh/id_rsa" else keyFile) ≠ "/root/.ssh/id_rsa"
    · rw [if_pos hk]
      cases h2' : NewSSHClientWithPassword w host port user
          (if keyFile = "" then "/root/.ssh/id_rsa" else keyFile) "" with
      | ok c' => exact absurd h2' (h2 c')
      | error e' =>
        dsimp only
        rw [if_pos hp, h3]
    · rw [if_neg hk]
      dsimp only
      rw [if_pos hp, h3]

/-- A concrete connection world where every key-based attempt fails (the key
cannot be parsed) and password dialing succeeds (test fixture). -/
def wBadKey : ConnWorld :=
  { keyLoad := fun _ => .error "解析私钥失败: invalid key",
    dial := fun _ _ m =>
      match m with
      | .passwordAuth _ => .ok ()
      | .publicKey _ => .error "handshake failure" }

/-- Claim C7, witness: with an unusable key but a valid password the smart
helper connects through the password strategy. -/
theorem c7_smart_connect_witness :
    (NewSSHClientSmart wBadKey "10.0.0.5" 22 "admin" "/home/admin/.ssh/bad_key" "secret").1 =
      .ok ⟨"10.0.0.5", 22, "admin", "/home/admin/.ssh/bad_key", "secret"⟩ := by
  have h := (c7_smart_connect wBadKey "10.0.0.5" 22 "admin" "/home/admin/.ssh/bad_key"
      "secret").2.2.2 "解析私钥失败: invalid key" ⟨"10.0.0.5", 22, "admin", "", "secret"⟩
    (by decide) rfl (fun c' hc => Except.noConfusion hc) rfl
  exact h

/-- A configuration carrying registry credentials and a node SSH password
(test fixture). -/
def cfgWithSecrets : ClusterConfig :=
  ⟨"k8s-deployer/v1", "Cluster", ⟨"demo"⟩,
   ⟨"v1.34.2", "harbor.example.com", ⟨"admin", "harborpw", false⟩, net0, ⟨false, ""⟩,
    hubble0, lb0, ⟨false, 0, [], []⟩, ⟨false⟩, ⟨false⟩,
    [⟨"master", "10.0.0.1", "m1", false, ⟨"ops", 22, "", "secret123"⟩⟩]⟩⟩

/-- Claim C9, evaluated at the failing input: the serialized payload indeed
carries no secrets (registry credentials and node SSH passwords are cleared),
but the caller's in-memory configuration is NOT left unchanged — because the
node list is a shared slice, the per-node password clearing writes through to
the caller, which afterwards sees an empty SSH password while its registry
credentials survive. -/
theorem c9_sanitize_mutates_caller :
    (sanitizeConfigForStore cfgWithSecrets).1.spec.harbor.username = "" ∧
    (sanitizeConfigForStore cfgWithSecrets).1.spec.harbor.password = "" ∧
    (sanitizeConfigForStore cfgWithSecrets).1.spec.nodes.map (fun n => n.ssh.password) = [""] ∧
    (sanitizeConfigForStore cfgWithSecrets).2.spec.harbor = cfgWithSecrets.spec.harbor ∧
    cfgWithSecrets.spec.nodes.map (fun n => n.ssh.password) = ["secret123"] ∧
    (sanitizeConfigForStore cfgWithSecrets).2.spec.nodes.map (fun n => n.ssh.password) = [""] ∧
    (sanitizeConfigForStore cfgWithSecrets).2 ≠ cfgWithSecrets := by
  refine ⟨rfl, rfl, rfl, rfl, rfl, rfl, ?_⟩
  decide

theorem processNodeHostnamesGo_length (c : String) :
    ∀ (nodes : List NodeConfig) (m w g : Nat),
      (processNodeHostnamesGo c m w g nodes).length = nodes.length := by
  intro nodes
  induction nodes with
  | nil => intro m w g; rfl
  | cons node rest ih =>
    intro m w g
    unfold processNodeHostnamesGo
    split_ifs <;> simp [ih]

theorem countP_take_lt (p : NodeConfig → Bool) :
    ∀ (l : List NodeConfig) (i j : Nat) (nd : NodeConfig),
      i < j → l[i]? = some nd → p nd = true →
      (l.take i).countP p < (l.take j).countP p := by
  intro l
  induction l with
  | nil => intro i j nd _ hi _; simp at hi
  | cons a t ih =>
    intro i j nd hij hi hp
    cases i with
    | zero =>
      simp only [List.getElem?_cons_zero, Option.some.injEq] at hi
      subst hi
      cases j with
      | zero => omega
      | succ j' =>
        simp [List.take_succ_cons, List.countP_cons, hp]
    | succ i' =>
      cases j with
      | zero => omega
      | succ j' =>
        simp only [List.getElem?_cons_succ] at hi
        have := ih i' j' nd (by omega) hi hp
        simp only [List.take_succ_cons, List.countP_cons]
        omega

theorem countP_take_le (p : NodeConfig → Bool) :
    ∀ (l : List NodeConfig) (i j : Nat), i ≤ j →
      (l.take i).countP p ≤ (l.take j).countP p := by
  intro l
  induction l with
  | nil => intro i j _; simp
  | cons a t ih =>
    intro i j hij
    cases i with
    | zero => simp
    | succ i' =>
      cases j with
      | zero => omega
      | succ j' =>
        simp only [List.take_succ_cons, List.countP_cons]
        have := ih i' j' (by omega)
        omega

theorem processNodeHostnamesGo_getElem (c : String) :
    ∀ (nodes : List NodeConfig) (m w g i : Nat) (nd : NodeConfig),
      nodes[i]? = some nd →
      (processNodeHostnamesGo c m w g nodes)[i]? = some (
        if isAutoMaster nd then
          { nd with hostname := (c ++ "-master-" ++
              pad2 (m + (nodes.take i).countP isAutoMaster)) }
        else if isAutoGpuWorker nd then
          { nd with hostname := (c ++ "-gpu-node-" ++
              pad2 (g + (nodes.take i).countP isAutoGpuWorker)) }
        else if isAutoWorker nd then
          { nd with hostname := (c ++ "-node-" ++
              pad2 (w + (nodes.take i).countP isAutoWorker)) }
        else nd) := by
  intro nodes
  induction nodes with
  | nil => intro m w g i nd h; simp at h
  | cons node rest ih =>
    intro m w g i nd h
    cases i with
    | zero =>
      simp only [List.getElem?_cons_zero, Option.some.injEq] at h
      subst h
      by_cases h1 : node.hostname = ""
      · by_cases h2 : node.role = "master"
        · have hw : ¬ node.role = "worker" := by rw [h2]; decide
          simp [processNodeHostnamesGo, h1, h2, hw, isAutoMaster, isAutoGpuWorker, isAutoWorker]
        · by_cases h3 : node.role = "worker"
          · by_cases h4 : node.gpu
            · simp [processNodeHostnamesGo, h1, h2, h3, h4,
                isAutoMaster, isAutoGpuWorker, isAutoWorker]
            · simp [processNodeHostnamesGo, h1, h2, h3, h4,
                isAutoMaster, isAutoGpuWorker, isAutoWorker]
          · simp [processNodeHostnamesGo, h1, h2, h3,
              isAutoMaster, isAutoGpuWorker, isAutoWorker]
      · simp [processNodeHostnamesGo, h1, isAutoMaster, isAutoGpuWorker, isAutoWorker]
    | succ i' =>
      simp only [List.getElem?_cons_succ] at h
      have cM := List.countP_cons (p := isAutoMaster) node (rest.take i')
      have cG := List.countP_cons (p := isAutoGpuWorker) node (rest.take i')
      have cW := List.countP_cons (p := isAutoWorker) node (rest.take i')
      by_cases h1 : node.hostname = ""
      · by_cases h2 : node.role = "master"
        · have hw : ¬ node.role = "worker" := by rw [h2]; decide
          have hgo : processNodeHostnamesGo c m w g (node :: rest) =
              { node with hostname := c ++ "-master-" ++ pad2 m } ::
                processNodeHostnamesGo c (m + 1) w g rest := by
            simp [processNodeHostnamesGo, h1, h2]
          rw [hgo]
          simp only [List.getElem?_cons_succ]
          rw [ih (m + 1) w g i' nd h]
          have eM : ((node :: rest).take (i' + 1)).countP isAutoMaster =
              (rest.take i').countP isAutoMaster + 1 := by
            rw [List.take_succ_cons, cM]
            simp [isAutoMaster, h1, h2]
          have eG : ((node :: rest).take (i' + 1)).countP isAutoGpuWorker =
              (rest.take i').countP isAutoGpuWorker := by
            rw [List.take_succ_cons, cG]
            simp [isAutoGpuWorker, hw]
          have eW : ((node :: rest).take (i' + 1)).countP isAutoWorker =
              (rest.take i').countP isAutoWorker := by
            rw [List.take_succ_cons, cW]
            simp [isAutoWorker, hw]
          rw [eM, eG, eW]
          have : m + ((rest.take i').countP isAutoMaster + 1) =
              m + 1 + (rest.take i').countP isAutoMaster := by omega
          rw [this]
        · by_cases h3 : node.role = "worker"
          · have hm : ¬ node.role = "master" := by rw [h3]; decide
            by_cases h4 : node.gpu
            · have hgo : processNodeHostnamesGo c m w g (node :: rest) =
                  { node with hostname := c ++ "-gpu-node-" ++ pad2 g } ::
                    processNodeHostnamesGo c m w (g + 1) rest := by
                simp [processNodeHostnamesGo, h1, h2, h3, h4]
              rw [hgo]
              simp only [List.getElem?_cons_succ]
              rw [ih m w (g + 1) i' nd h]
              have eM : ((node :: rest).take (i' + 1)).countP isAutoMaster =
                  (rest.take i').countP isAutoMaster := by
                rw [List.take_succ_cons, cM]
                simp [isAutoMaster, hm]
              have eG : ((node :: rest).take (i' + 1)).countP isAutoGpuWorker =
                  (rest.take i').countP isAutoGpuWorker + 1 := by
                rw [List.take_succ_cons, cG]
                simp [isAutoGpuWorker, h1, h3, h4]
              have eW : ((node :: rest).take (i' + 1)).countP isAutoWorker =
                  (rest.take i').countP isAutoWorker := by
                rw [List.take_succ_cons, cW]
                simp [isAutoWorker, h4]
              rw [eM, eG, eW]
              have : g + ((rest.take i').countP isAutoGpuWorker + 1) =
                  g + 1 + (rest.take i').countP isAutoGpuWorker := by omega
              rw [this]
            · have hgo : processNodeHostnamesGo c m w g (node :: rest) =
                  { node with hostname := c ++ "-node-" ++ pad2 w } ::
                    processNodeHostnamesGo c m (w + 1) g rest := by
                simp [processNodeHostnamesGo, h1, h2, h3, h4]
              rw [hgo]
              simp only [List.getElem?_cons_succ]
              rw [ih m (w + 1) g i' nd h]
              have eM : ((node :: rest).take (i' + 1)).countP isAutoMaster =
                  (rest.take i').countP isAutoMaster := by
                rw [List.take_succ_cons, cM]
                simp [isAutoMaster, hm]
              have eG : ((node :: rest).take (i' + 1)).countP isAutoGpuWorker =
                  (rest.take i').countP isAutoGpuWorker := by
                rw [List.take_succ_cons, cG]
                simp [isAutoGpuWorker, h4]
              have eW : ((node :: rest).take (i' + 1)).countP isAutoWorker =
                  (rest.take i').countP isAutoWorker + 1 := by
                rw [List.take_succ_cons, cW]
                simp [isAutoWorker, h1, h3, h4]
              rw [eM, eG, eW]
              have : w + ((rest.take i').countP isAutoWorker + 1) =
                  w + 1 + (rest.take i').countP isAutoWorker := by omega
              rw [this]
          · have hgo : processNodeHostnamesGo c m w g (node :: rest) =
                node :: processNodeHostnamesGo c m w g rest := by
              simp [processNodeHostnamesGo, h1, h2, h3]
            rw [hgo]
            simp only [List.getElem?_cons_succ]
            rw [ih m w g i' nd h]
            have eM : ((node :: rest).take (i' + 1)).countP isAutoMaster =
                (rest.take i').countP isAutoMaster := by
              rw [List.take_succ_cons, cM]
              simp [isAutoMaster, h2]
            have eG : ((node :: rest).take (i' + 1)).countP isAutoGpuWorker =
                (rest.take i').countP isAutoGpuWorker := by
              rw [List.take_succ_cons, cG]
              simp [isAutoGpuWorker, h3]
            have eW : ((node :: rest).take (i' + 1)).countP isAutoWorker =
                (rest.take i').countP isAutoWorker := by
              rw [List.take_succ_cons, cW]
              simp [isAutoWorker, h3]
            rw [eM, eG, eW]
      · have hgo : processNodeHostnamesGo c m w g (node :: rest) =
            node :: processNodeHostnamesGo c m w g rest := by
          simp [processNodeHostnamesGo, h1]
        rw [hgo]
        simp only [List.getElem?_cons_succ]
        rw [ih m w g i' nd h]
        have eM : ((node :: rest).take (i' + 1)).countP isAutoMaster =
            (rest.take i').countP isAutoMaster := by
          rw [List.take_succ_cons, cM]
          simp [isAutoMaster, h1]
        have eG : ((node :: rest).take (i' + 1)).countP isAutoGpuWorker =
            (rest.take i').countP isAutoGpuWorker := by
          rw [List.take_succ_cons, cG]
          simp [isAutoGpuWorker, h1]
        have eW : ((node :: rest).take (i' + 1)).countP isAutoWorker =
            (rest.take i').countP isAutoWorker := by
          rw [List.take_succ_cons, cW]
          simp [isAutoWorker, h1]
        rw [eM, eG, eW]

theorem hostname_master_ne_node (c u v : String) :
    c ++ "-master-" ++ u ≠ c ++ "-node-" ++ v := by
  intro h
  have hd := congrArg String.data h
  simp only [string_append_data, List.append_assoc] at hd
  have h2 := List.append_cancel_left hd
  simp only [List.cons_append] at h2
  injection h2 with _ h3
  injection h3 with h4 _
  exact absurd h4 (by decide)

theorem hostname_master_ne_gpu (c u v : String) :
    c ++ "-master-" ++ u ≠ c ++ "-gpu-node-" ++ v := by
  intro h
  have hd := congrArg String.data h
  simp only [string_append_data, List.append_assoc] at hd
  have h2 := List.append_cancel_left hd
  simp only [List.cons_append] at h2
  injection h2 with _ h3
  injection h3 with h4 _
  exact absurd h4 (by decide)

theorem hostname_node_ne_gpu (c u v : String) :
    c ++ "-node-" ++ u ≠ c ++ "-gpu-node-" ++ v := by
  intro h
  have hd := congrArg String.data h
  simp only [string_append_data, List.append_assoc] at hd
  have h2 := List.append_cancel_left hd
  simp only [List.cons_append] at h2
  injection h2 with _ h3
  injection h3 with h4 _
  exact absurd h4 (by decide)

theorem auto_partitions_exclusive (nd : NodeConfig) :
    (isAutoMaster nd = true → isAutoGpuWorker nd = false ∧ isAutoWorker nd = false) ∧
    (isAutoGpuWorker nd = true → isAutoMaster nd = false ∧ isAutoWorker nd = false) ∧
    (isAutoWorker nd = true → isAutoMaster nd = false ∧ isAutoGpuWorker nd = false) := by
  unfold isAutoMaster isAutoGpuWorker isAutoWorker
  by_cases h1 : nd.hostname = "" <;>
    by_cases h2 : nd.role = "master" <;>
    by_cases h3 : nd.role = "worker" <;>
    cases h4 : nd.gpu <;>
    (try simp [h2] at h3) <;>
    simp [h1, h2, h3, h4]

/-- Claim C5: hostname auto-generation assigns each node whose hostname is
empty a name of the form cluster-master-NN, cluster-node-NN or
cluster-gpu-node-NN according to its role/GPU partition, with NN rendered by
the two-digit zero-padded verb and equal to one plus the number of earlier
auto-named nodes of the same partition (so the counter starts at 1 and is
strictly increasing within each partition); nodes that already carry a
hostname are untouched; and any two auto-generated hostnames in the list are
distinct. -/
theorem c5_hostnames (cfg : ClusterConfig) :
    ((processNodeHostnames cfg).spec.nodes.length = cfg.spec.nodes.length) ∧
    (∀ i : Nat, ∀ nd : NodeConfig, cfg.spec.nodes[i]? = some nd →
      ((isAutoMaster nd = true →
        (processNodeHostnames cfg).spec.nodes[i]? = some { nd with hostname :=
          (cfg.metadata.name ++ "-master-" ++
            pad2 (1 + (cfg.spec.nodes.take i).countP isAutoMaster)) }) ∧
       (isAutoGpuWorker nd = true →
        (processNodeHostnames cfg).spec.nodes[i]? = some { nd with hostname :=
          (cfg.metadata.name ++ "-gpu-node-" ++
            pad2 (1 + (cfg.spec.nodes.take i).countP isAutoGpuWorker)) }) ∧
       (isAutoWorker nd = true →
        (processNodeHostnames cfg).spec.nodes[i]? = some { nd with hostname :=
          (cfg.metadata.name ++ "-node-" ++
            pad2 (1 + (cfg.spec.nodes.take i).countP isAutoWorker)) }) ∧
       (nd.hostname ≠ "" → (processNodeHostnames cfg).spec.nodes[i]? = some nd))) ∧
    (∀ i j : Nat, ∀ ndi ndj outi outj : NodeConfig, i ≠ j →
      cfg.spec.nodes[i]? = some ndi → cfg.spec.nodes[j]? = some ndj →
      (isAutoMaster ndi || isAutoGpuWorker ndi || isAutoWorker ndi) = true →
      (isAutoMaster ndj || isAutoGpuWorker ndj || isAutoWorker ndj) = true →
      (processNodeHostnames cfg).spec.nodes[i]? = some outi →
      (processNodeHostnames cfg).spec.nodes[j]? = some outj →
      outi.hostname ≠ outj.hostname) := by
  have hout : (processNodeHostnames cfg).spec.nodes =
      processNodeHostnamesGo cfg.metadata.name 1 1 1 cfg.spec.nodes := rfl
  refine ⟨?_, ?_, ?_⟩
  · rw [hout, processNodeHostnamesGo_length]
  · intro i nd h
    have hch := processNodeHostnamesGo_getElem cfg.metadata.name cfg.spec.nodes 1 1 1 i nd h
    obtain ⟨hex1, hex2, hex3⟩ := auto_partitions_exclusive nd
    refine ⟨?_, ?_, ?_, ?_⟩
    · intro hcat
      rw [hout, hch]
      simp [hcat]
    · intro hcat
      obtain ⟨hm, _⟩ := hex2 hcat
      rw [hout, hch]
      simp [hcat, hm]
    · intro hcat
      obtain ⟨hm, hg⟩ := hex3 hcat
      rw [hout, hch]
      simp [hcat, hm, hg]
    · intro hne
      have hm : isAutoMaster nd = false := by
        unfold isAutoMaster
        simp [hne]
      have hg : isAutoGpuWorker nd = false := by
        unfold isAutoGpuWorker
        simp [hne]
      have hw : isAutoWorker nd = false := by
        unfold isAutoWorker
        simp [hne]
      rw [hout, hch]
      simp [hm, hg, hw]
  · intro i j ndi ndj outi outj hij hi hj hci hcj houti houtj
    have chi := processNodeHostnamesGo_getElem cfg.metadata.name cfg.spec.nodes 1 1 1 i ndi hi
    have chj := processNodeHostnamesGo_getElem cfg.metadata.name cfg.spec.nodes 1 1 1 j ndj hj
    rw [hout, chi] at houti
    rw [hout, chj] at houtj
    have hvi := (Option.some.injEq _ _).mp houti
    have hvj := (Option.some.injEq _ _).mp houtj
    obtain ⟨hexi1, hexi2, hexi3⟩ := auto_partitions_exclusive ndi
    obtain ⟨hexj1, hexj2, hexj3⟩ := auto_partitions_exclusive ndj
    have hsame : ∀ (p : NodeConfig → Bool), p ndi = true → p ndj = true →
        (cfg.spec.nodes.take i).countP p ≠ (cfg.spec.nodes.take j).countP p := by
      intro p hpi hpj
      rcases Nat.lt_or_ge i j with hlt | hge
      · exact Nat.ne_of_lt (countP_take_lt p cfg.spec.nodes i j ndi hlt hi hpi)
      · have hlt : j < i := by omega
        exact (Nat.ne_of_lt (countP_take_lt p cfg.spec.nodes j i ndj hlt hj hpj)).symm
    rcases Bool.or_eq_true_iff.mp hci with hci' | hci3
    rotate_left
    · -- ndi is an auto plain worker
      obtain ⟨hmi, hgi⟩ := hexi3 hci3
      rw [hci3, hmi, hgi] at hvi
      simp only [if_false, if_true, Bool.false_eq_true, Bool.true_eq_false] at hvi
      rcases Bool.or_eq_true_iff.mp hcj with hcj' | hcj3
      rotate_left
      · obtain ⟨hmj, hgj⟩ := hexj3 hcj3
        rw [hcj3, hmj, hgj] at hvj
        simp only [if_false, if_true, Bool.false_eq_true, Bool.true_eq_false] at hvj
        rw [← hvi, ← hvj]
        intro heq
        simp only at heq
        have := pad2_injective (string_append_left_cancel heq)
        have hne := hsame isAutoWorker hci3 hcj3
        omega
      · rcases Bool.or_eq_true_iff.mp hcj' with hcj1 | hcj2
        · obtain ⟨hgj, hwj⟩ := hexj1 hcj1
          rw [hcj1] at hvj
          simp only [if_true] at hvj
          rw [← hvi, ← hvj]
          intro heq
          simp only at heq
          exact (hostname_master_ne_node cfg.metadata.name _ _) heq.symm
        · obtain ⟨hmj, hwj⟩ := hexj2 hcj2
          rw [hcj2, hmj] at hvj
          simp only [if_false, if_true, Bool.false_eq_true, Bool.true_eq_false] at hvj
          rw [← hvi, ← hvj]
          intro heq
          simp only at heq
          exact (hostname_node_ne_gpu cfg.metadata.name _ _) heq
    · rcases Bool.or_eq_true_iff.mp hci' with hci1 | hci2
      · -- ndi is an auto master
        obtain ⟨hgi, hwi⟩ := hexi1 hci1
        rw [hci1] at hvi
        simp only [if_true] at hvi
        rcases Bool.or_eq_true_iff.mp hcj with hcj' | hcj3
        rotate_left
        · obtain ⟨hmj, hgj⟩ := hexj3 hcj3
          rw [hcj3, hmj, hgj] at hvj
          simp only [if_false, if_true, Bool.false_eq_true, Bool.true_eq_false] at hvj
          rw [← hvi, ← hvj]
          intro heq
          simp only at heq
          exact (hostname_master_ne_node cfg.metadata.name _ _) heq
        · rcases Bool.or_eq_true_iff.mp hcj' with hcj1 | hcj2
          · rw [hcj1] at hvj
            simp only [if_true] at hvj
            rw [← hvi, ← hvj]
            intro heq
            simp only at heq
            have := pad2_injective (string_append_left_cancel heq)
            have hne := hsame isAutoMaster hci1 hcj1
            omega
          · obtain ⟨hmj, hwj⟩ := hexj2 hcj2
            rw [hcj2, hmj] at hvj
            simp only [if_false, if_true, Bool.false_eq_true, Bool.true_eq_false] at hvj
            rw [← hvi, ← hvj]
            intro heq
            simp only at heq
            exact (hostname_master_ne_gpu cfg.metadata.name _ _) heq
      · -- ndi is an auto GPU worker
        obtain ⟨hmi, hwi⟩ := hexi2 hci2
        rw [hci2, hmi] at hvi
        simp only [if_false, if_true, Bool.false_eq_true, Bool.true_eq_false] at hvi
        rcases Bool.or_eq_true_iff.mp hcj with hcj' | hcj3
        rotate_left
        · obtain ⟨hmj, hgj⟩ := hexj3 hcj3
          rw [hcj3, hmj, hgj] at hvj
          simp only [if_false, if_true, Bool.false_eq_true, Bool.true_eq_false] at hvj
          rw [← hvi, ← hvj]
          intro heq
          simp only at heq
          exact (hostname_node_ne_gpu cfg.metadata.name _ _) heq.symm
        · rcases Bool.or_eq_true_iff.mp hcj' with hcj1 | hcj2
          · rw [hcj1] at hvj
            simp only [if_true] at hvj
            rw [← hvi, ← hvj]
            intro heq
            simp only at heq
            exact (hostname_master_ne_gpu cfg.metadata.name _ _) heq.symm
          · obtain ⟨hmj, hwj⟩ := hexj2 hcj2
            rw [hcj2, hmj] at hvj
            simp only [if_false, if_true, Bool.false_eq_true, Bool.true_eq_false] at hvj
            rw [← hvi, ← hvj]
            intro heq
            simp only at heq
            have := pad2_injective (string_append_left_cancel heq)
            have hne := hsame isAutoGpuWorker hci2 hcj2
            omega

/-- A configuration with three hostname-less nodes, one per partition, plus a
node with a preset hostname (test fixture). -/
def cfgHostnames : ClusterConfig :=
  ⟨"k8s-deployer/v1", "Cluster", ⟨"demo"⟩,
   ⟨"v1.34.2", "registry.k8s.io", harbor0, net0, ⟨false, ""⟩, hubble0, lb0,
    ⟨false, 0, [], []⟩, ⟨false⟩, ⟨false⟩,
    [⟨"master", "10.0.0.1", "", false, ⟨"root", 22, "", "pw"⟩⟩,
     ⟨"worker", "10.0.0.2", "", false, ⟨"root", 22, "", "pw"⟩⟩,
     ⟨"worker", "10.0.0.3", "", true, ⟨"root", 22, "", "pw"⟩⟩,
     ⟨"master", "10.0.0.4", "preset", false, ⟨"root", 22, "", "pw"⟩⟩]⟩⟩

/-- Claim C5, witness: the concrete four-node configuration receives the
expected generated names, the preset hostname survives, and two generated
names are distinct. -/
theorem c5_hostnames_witness :
    (processNodeHostnames cfgHostnames).spec.nodes[0]? =
      some ⟨"master", "10.0.0.1", "demo-master-01", false, ⟨"root", 22, "", "pw"⟩⟩ ∧
    (processNodeHostnames cfgHostnames).spec.nodes[1]? =
      some ⟨"worker", "10.0.0.2", "demo-node-01", false, ⟨"root", 22, "", "pw"⟩⟩ ∧
    (processNodeHostnames cfgHostnames).spec.nodes[2]? =
      some ⟨"worker", "10.0.0.3", "demo-gpu-node-01", true, ⟨"root", 22, "", "pw"⟩⟩ ∧
    (processNodeHostnames cfgHostnames).spec.nodes[3]? =
      some ⟨"master", "10.0.0.4", "preset", false, ⟨"root", 22, "", "pw"⟩⟩ ∧
    ("demo-master-01" : String) ≠ "demo-node-01" := by
  have h := c5_hostnames cfgHostnames
  refine ⟨?_, ?_, ?_, ?_, ?_⟩
  · have hx := (h.2.1 0 ⟨"master", "10.0.0.1", "", false, ⟨"root", 22, "", "pw"⟩⟩ rfl).1 rfl
    rw [hx]
    decide
  · have hx := (h.2.1 1 ⟨"worker", "10.0.0.2", "", false, ⟨"root", 22, "", "pw"⟩⟩ rfl).2.2.1 rfl
    rw [hx]
    decide
  · have hx := (h.2.1 2 ⟨"worker", "10.0.0.3", "", true, ⟨"root", 22, "", "pw"⟩⟩ rfl).2.1 rfl
    rw [hx]
    decide
  · have hx := (h.2.1 3 ⟨"master", "10.0.0.4", "preset", false, ⟨"root", 22, "", "pw"⟩⟩
      rfl).2.2.2 (by decide)
    rw [hx]
  · exact h.2.2 0 1
      ⟨"master", "10.0.0.1", "", false, ⟨"root", 22, "", "pw"⟩⟩
      ⟨"worker", "10.0.0.2", "", false, ⟨"root", 22, "", "pw"⟩⟩
      ⟨"master", "10.0.0.1", "demo-master-01", false, ⟨"root", 22, "", "pw"⟩⟩
      ⟨"worker", "10.0.0.2", "demo-node-01", false, ⟨"root", 22, "", "pw"⟩⟩
      (by decide) rfl rfl (by decide) (by decide) (by decide) (by decide)
